import Mathlib

/-!
# Verification of the real-time room synchronization engine
(`src/server/voiceChat.ts`: `VoiceChatManager` and `GameSyncManager`)

The two manager classes are embedded shallowly:

* JavaScript `Map` objects (insertion-ordered, keys unique) are embedded as
  insertion-ordered association lists `List (String × α)`; `Map.set` replaces
  the value in place when the key is present and appends otherwise, `Map.get`
  is `mget`, `Map.delete` is `mdel`, iteration (`forEach`, `values()`,
  `Array.from`) follows list order.
* JavaScript numbers are embedded as `Int` (all arithmetic the claims touch is
  integral); 2-D positions are `Int × Int`.
* A `WebSocket` is embedded as a connection id `Nat`; its `readyState` is
  supplied to each step by the environment as `wsOpen : Nat → Bool`.
  `ws.send` calls are collected as outputs `(connection id, message)`;
  messages are never sent to a non-open socket.
* `Date.now()` / `new Date()` readings are supplied by the environment as a
  `now : Nat` parameter of each operation.
* The external persistence collaborator (`storage.saveGameScore`) is
  fire-and-forget with no effect on manager state (failures are only logged),
  so its calls are not part of the embedded state; `EventEmitter.emit` and
  `console` logging likewise have no effect on manager state and no client
  visible output. The `audioSessions` field of `VoiceChatManager` is declared
  in the source but never read or written, so it is omitted.
* Dynamic JSON values (`gameState`, game message payloads) are embedded as the
  inductive `JVal`, with JavaScript truthiness where the source relies on it.
-/

namespace VoiceChatTS

/-- JS `Map.prototype.get`, on an insertion-ordered association list. -/
def mget {α : Type} : List (String × α) → String → Option α
  | [], _ => none
  | kv :: rest, k => if kv.1 = k then some kv.2 else mget rest k

/-- JS `Map.prototype.set`: replace in place if the key is present, else
append at the end (JS maps keep the original insertion position on update). -/
def mset {α : Type} : List (String × α) → String → α → List (String × α)
  | [], k, v => [(k, v)]
  | kv :: rest, k, v => if kv.1 = k then (k, v) :: rest else kv :: mset rest k v

/-- JS `Map.prototype.delete`. -/
def mdel {α : Type} : List (String × α) → String → List (String × α)
  | [], _ => []
  | kv :: rest, k => if kv.1 = k then mdel rest k else kv :: mdel rest k

/-- `map.size === 0` / emptiness test. -/
def misEmpty {α : Type} (m : List (String × α)) : Bool := m.isEmpty

/-- Keys of the association list. -/
def mkeys {α : Type} (m : List (String × α)) : List String := m.map Prod.fst

/-- JS truthiness `x || d` for an optional number: `undefined` and `0` are
falsy. -/
def jsOrInt (x : Option Int) (d : Int) : Int :=
  match x with
  | none => d
  | some v => if v = 0 then d else v

/-- JS truthiness `x || d` for an optional string: `undefined` and `""` are
falsy. -/
def jsOrStr (x : Option String) (d : String) : String :=
  match x with
  | none => d
  | some v => if v = "" then d else v

/-- Dynamic JSON value (the `any`-typed payloads and `gameState`). -/
inductive JVal where
  | undef : JVal
  | jnull : JVal
  | jbool : Bool → JVal
  | jnum : Int → JVal
  | jstr : String → JVal
  | jarr : List JVal → JVal
  | jobj : List (String × JVal) → JVal
deriving Repr

/-- JS truthiness of a dynamic value. -/
def jvalTruthy : JVal → Bool
  | JVal.undef => false
  | JVal.jnull => false
  | JVal.jbool b => b
  | JVal.jnum n => n ≠ 0
  | JVal.jstr s => s ≠ ""
  | JVal.jarr _ => true
  | JVal.jobj _ => true

/-- Property access `o.f` on a dynamic value (missing property or non-object
gives `undefined`). -/
def jget : JVal → String → JVal
  | JVal.jobj fields, f =>
    match mget fields f with
    | some v => v
    | none => JVal.undef
  | _, _ => JVal.undef

/-- Property assignment `o.f = v` on a dynamic object value (no-op on
non-objects; the handlers only ever assign on objects). -/
def jset : JVal → String → JVal → JVal
  | JVal.jobj fields, f, v => JVal.jobj (mset fields f v)
  | o, _, _ => o

/-- JS object spread `{...a, ...b}` at the top level: keys of `a` in order
(values overridden by `b` where present), then the keys of `b` not in `a`,
in order. -/
def spreadMerge (a b : List (String × JVal)) : List (String × JVal) :=
  (a.map (fun kv =>
    match mget b kv.1 with
    | some v => (kv.1, v)
    | none => kv))
  ++ b.filter (fun kv => !(mget a kv.1).isSome)

/-! ## Voice chat manager (`VoiceChatManager`) -/

/-- `userInfo` supplied by the external auth layer with a join/create message
(`userInfo.isAdmin || false` is already folded into the `Bool`). -/
structure UserInfo where
  id : String
  username : String
  isAdmin : Bool
deriving Repr, DecidableEq

/-- `VoiceUser` (the `ws` field is the connection id, `lastActivity` the
`Date` reading as supplied by the environment). -/
structure VoiceUser where
  id : String
  username : String
  isAdmin : Bool
  isMuted : Bool
  isSpeaking : Bool
  isDeafened : Bool
  volume : Int
  quality : String
  ws : Nat
  lastActivity : Nat
  micEnabled : Bool
  speakerEnabled : Bool
deriving Repr, DecidableEq

/-- `VoiceRoom.settings`. -/
structure VoiceSettings where
  maxUsers : Int
  isPrivate : Bool
  password : Option String
  autoMute : Bool
  noiseReduction : Bool
  echoCancellation : Bool
  bitrate : Int
  sampleRate : Int
deriving Repr, DecidableEq

/-- `VoiceRoom` (`users` is the insertion-ordered member map). -/
structure VoiceRoom where
  id : String
  name : String
  description : Option String
  users : List (String × VoiceUser)
  settings : VoiceSettings
  createdAt : Nat
  ownerId : String
  isTemporary : Bool
deriving Repr, DecidableEq

/-- Result of `serializeVoiceUser`. -/
structure SVoiceUser where
  id : String
  username : String
  isAdmin : Bool
  isMuted : Bool
  isSpeaking : Bool
  isDeafened : Bool
  volume : Int
  quality : String
  micEnabled : Bool
  speakerEnabled : Bool
  lastActivity : Nat
deriving Repr, DecidableEq

/-- Result of `serializeVoiceRoom`. -/
structure SVoiceRoom where
  id : String
  name : String
  description : Option String
  users : List SVoiceUser
  settings : VoiceSettings
  ownerId : String
  isTemporary : Bool
  userCount : Nat
deriving Repr, DecidableEq

/-- Result of `applyVolumeControl`: the opaque audio payload with the
per-recipient `volume` scaling factor (`volume / 100`) attached. -/
structure VolAudio where
  base : String
  volume : Rat
deriving Repr, DecidableEq

/-- The `data` payload of an outgoing voice message, one constructor per
payload shape built by the source. -/
inductive VoiceData where
  | err (error : String)
  | joinAck (room : SVoiceRoom) (settings : VoiceSettings) (message : String)
  | userJoined (user : SVoiceUser) (action : String) (message : String)
  | userLeft (action : String) (message : String)
  | speakStart (username : String) (quality : String)
  | speakStop (username : String)
  | audioOut (audioData : VolAudio) (senderId : String) (senderName : String)
      (quality : String)
  | muteFlag (username : String) (isMuted : Bool)
  | createAck (room : SVoiceRoom) (message : String)
  | qualityAck (quality : String) (volume : Int) (message : String)
  | echoData (audioData : String) (delay : Nat) (message : String)
  | settingsData (settings : VoiceSettings) (message : String)
deriving Repr, DecidableEq

/-- The outgoing `VoiceMessage` envelope. -/
structure VoiceMsg where
  type : String
  roomId : String
  userId : String
  data : VoiceData
  timestamp : Nat
deriving Repr, DecidableEq

/-- The mutable state of `VoiceChatManager`: `rooms` and `userRooms`
(`audioSessions` is declared in the source but never used). -/
structure VState where
  rooms : List (String × VoiceRoom)
  userRooms : List (String × String)
deriving Repr, DecidableEq

namespace VoiceChatManager

/-- `serializeVoiceUser`. -/
def serializeVoiceUser (u : VoiceUser) : SVoiceUser :=
  { id := u.id, username := u.username, isAdmin := u.isAdmin, isMuted := u.isMuted,
    isSpeaking := u.isSpeaking, isDeafened := u.isDeafened, volume := u.volume,
    quality := u.quality, micEnabled := u.micEnabled,
    speakerEnabled := u.speakerEnabled, lastActivity := u.lastActivity }

/-- `serializeVoiceRoom`. -/
def serializeVoiceRoom (r : VoiceRoom) : SVoiceRoom :=
  { id := r.id, name := r.name, description := r.description,
    users := (r.users.map (·.2)).map serializeVoiceUser, settings := r.settings,
    ownerId := r.ownerId, isTemporary := r.isTemporary,
    userCount := r.users.length }

/-- `sendToUser`: a send happens only when the socket is open. -/
def sendToUser (wsOpen : Nat → Bool) (ws : Nat) (msg : VoiceMsg) :
    List (Nat × VoiceMsg) :=
  if wsOpen ws then [(ws, msg)] else []

/-- `sendError`. -/
def sendError (wsOpen : Nat → Bool) (ws : Nat) (error : String) (now : Nat) :
    List (Nat × VoiceMsg) :=
  sendToUser wsOpen ws
    { type := "voice_room_join", roomId := "", userId := "",
      data := VoiceData.err error, timestamp := now }

/-- `broadcastToVoiceRoom`: fan-out to every member of the room whose socket
is open, skipping the optional excluded user id. -/
def broadcastToVoiceRoom (wsOpen : Nat → Bool) (rooms : List (String × VoiceRoom))
    (roomId : String) (msg : VoiceMsg) (excludeUserId : Option String) :
    List (Nat × VoiceMsg) :=
  match mget rooms roomId with
  | none => []
  | some room =>
    (room.users.filter
      (fun kv => decide (some kv.1 ≠ excludeUserId) && wsOpen kv.2.ws)).map
      (fun kv => (kv.2.ws, msg))

/-- `applyVolumeControl`. -/
def applyVolumeControl (audioData : String) (volume : Int) : VolAudio :=
  { base := audioData, volume := (volume : Rat) / 100 }

/-- Config argument of `createRoom`. -/
structure CreateRoomConfig where
  id : String
  name : String
  description : Option String
  ownerId : String
  isPrivate : Bool
  password : Option String
  maxUsers : Int
  isTemporary : Bool
deriving Repr, DecidableEq

/-- `createRoom`: builds the room, stores it, and returns it. -/
def createRoom (s : VState) (config : CreateRoomConfig) (now : Nat) :
    VState × VoiceRoom :=
  let room : VoiceRoom :=
    { id := config.id, name := config.name, description := config.description,
      users := [],
      settings :=
        { maxUsers := config.maxUsers, isPrivate := config.isPrivate,
          password := config.password, autoMute := false,
          noiseReduction := true, echoCancellation := true,
          bitrate := 64000, sampleRate := 44100 },
      createdAt := now, ownerId := config.ownerId,
      isTemporary := config.isTemporary }
  ({ s with rooms := mset s.rooms config.id room }, room)

/-- `setupDefaultRooms`, run by the constructor: the two permanent rooms. -/
def initialVState : VState :=
  let s0 : VState := { rooms := [], userRooms := [] }
  let s1 := (createRoom s0
    { id := "general", name := "الغرفة العامة",
      description := some "غرفة المحادثة الصوتية العامة للجميع",
      ownerId := "system", isPrivate := false, password := none,
      maxUsers := 50, isTemporary := false } 0).1
  (createRoom s1
    { id := "gaming", name := "غرفة الألعاب",
      description := some "للمحادثة الصوتية أثناء اللعب",
      ownerId := "system", isPrivate := false, password := none,
      maxUsers := 20, isTemporary := false } 0).1

/-- The fresh `VoiceUser` record `handleRoomJoin` builds for the joiner. -/
def freshVoiceUser (userInfo : UserInfo) (ws : Nat) (now : Nat) : VoiceUser :=
  { id := userInfo.id, username := userInfo.username,
    isAdmin := userInfo.isAdmin, isMuted := false, isSpeaking := false,
    isDeafened := false, volume := 100, quality := "medium", ws := ws,
    lastActivity := now, micEnabled := true, speakerEnabled := true }

/-- `removeUserFromRoom`: remove the member, drop the membership index entry,
notify the remaining members, and delete a temporary room left empty. -/
def removeUserFromRoom (wsOpen : Nat → Bool) (s : VState)
    (userId roomId : String) (now : Nat) : VState × List (Nat × VoiceMsg) :=
  match mget s.rooms roomId with
  | none => (s, [])
  | some room =>
    match mget room.users userId with
    | none => (s, [])
    | some user =>
      let room1 := { room with users := mdel room.users userId }
      let rooms1 := mset s.rooms roomId room1
      let userRooms1 := mdel s.userRooms userId
      let out := broadcastToVoiceRoom wsOpen rooms1 roomId
        { type := "voice_user_status", roomId := roomId, userId := userId,
          data := VoiceData.userLeft "left"
            ("غادر " ++ user.username ++ " المحادثة الصوتية"),
          timestamp := now } none
      let rooms2 :=
        if room1.isTemporary && room1.users.isEmpty then mdel rooms1 roomId
        else rooms1
      ({ rooms := rooms2, userRooms := userRooms1 }, out)

/-- `handleRoomJoin`: admission checks (absent, full, wrong password), then
eviction of the previous voice-room membership, insertion of a fresh
`VoiceUser`, join acknowledgement to the joiner, and arrival notification to
the other members (excluding the joiner).

The source first captures the room object, then (after a possible eviction
that can delete the map entry for `roomId` when the joiner rejoins a
temporary room as sole member) mutates that same object; the object is
written through the map only when the entry still exists, exactly as the
aliasing in the source behaves. -/
def handleRoomJoin (wsOpen : Nat → Bool) (s : VState) (ws : Nat)
    (roomId : String) (userInfo : UserInfo) (password : Option String)
    (now : Nat) : VState × List (Nat × VoiceMsg) :=
  match mget s.rooms roomId with
  | none => (s, sendError wsOpen ws "الغرفة الصوتية غير موجودة" now)
  | some room =>
    if (room.users.length : Int) ≥ room.settings.maxUsers then
      (s, sendError wsOpen ws "الغرفة الصوتية ممتلئة" now)
    else if room.settings.isPrivate && room.settings.password ≠ password then
      (s, sendError wsOpen ws "كلمة مرور الغرفة الصوتية خاطئة" now)
    else
      let evict :=
        match mget s.userRooms userInfo.id with
        | some previousRoomId =>
          -- `if (previousRoomId)`: the empty string is falsy in JS
          if previousRoomId = "" then (s, [])
          else removeUserFromRoom wsOpen s userInfo.id previousRoomId now
        | none => (s, [])
      let s1 := evict.1
      let voiceUser : VoiceUser := freshVoiceUser userInfo ws now
      let roomFinal :=
        match mget s1.rooms roomId with
        | some r1 => { r1 with users := mset r1.users userInfo.id voiceUser }
        | none =>
          -- the room object detached from the store by the eviction
          { room with
              users := mset (mdel room.users userInfo.id) userInfo.id voiceUser }
      let rooms2 :=
        match mget s1.rooms roomId with
        | some _ => mset s1.rooms roomId roomFinal
        | none => s1.rooms
      let s2 : VState :=
        { rooms := rooms2, userRooms := mset s1.userRooms userInfo.id roomId }
      let ack := sendToUser wsOpen ws
        { type := "voice_room_join", roomId := roomId, userId := userInfo.id,
          data := VoiceData.joinAck (serializeVoiceRoom roomFinal)
            roomFinal.settings ("مرحباً بك في " ++ roomFinal.name),
          timestamp := now }
      let arrival := broadcastToVoiceRoom wsOpen rooms2 roomId
        { type := "voice_user_status", roomId := roomId,
          userId := userInfo.id,
          data := VoiceData.userJoined (serializeVoiceUser voiceUser) "joined"
            ("انضم " ++ userInfo.username ++ " للمحادثة الصوتية"),
          timestamp := now } (some userInfo.id)
      (s2, evict.2 ++ ack ++ arrival)

/-- `handleRoomLeave`. -/
def handleRoomLeave (wsOpen : Nat → Bool) (s : VState)
    (roomId userId : String) (now : Nat) : VState × List (Nat × VoiceMsg) :=
  removeUserFromRoom wsOpen s userId roomId now

/-- `handleStartSpeaking`: ignored when the user is absent or muted. -/
def handleStartSpeaking (wsOpen : Nat → Bool) (s : VState)
    (roomId userId : String) (now : Nat) : VState × List (Nat × VoiceMsg) :=
  match mget s.rooms roomId with
  | none => (s, [])
  | some room =>
    match mget room.users userId with
    | none => (s, [])
    | some user =>
      if user.isMuted then (s, [])
      else
        let user1 := { user with isSpeaking := true, lastActivity := now }
        let room1 := { room with users := mset room.users userId user1 }
        let rooms1 := mset s.rooms roomId room1
        ({ s with rooms := rooms1 },
          broadcastToVoiceRoom wsOpen rooms1 roomId
            { type := "voice_start_speaking", roomId := roomId,
              userId := userId,
              data := VoiceData.speakStart user.username user.quality,
              timestamp := now } (some userId))

/-- `handleStopSpeaking`. -/
def handleStopSpeaking (wsOpen : Nat → Bool) (s : VState)
    (roomId userId : String) (now : Nat) : VState × List (Nat × VoiceMsg) :=
  match mget s.rooms roomId with
  | none => (s, [])
  | some room =>
    match mget room.users userId with
    | none => (s, [])
    | some user =>
      let user1 := { user with isSpeaking := false }
      let room1 := { room with users := mset room.users userId user1 }
      let rooms1 := mset s.rooms roomId room1
      ({ s with rooms := rooms1 },
        broadcastToVoiceRoom wsOpen rooms1 roomId
          { type := "voice_stop_speaking", roomId := roomId, userId := userId,
            data := VoiceData.speakStop user.username,
            timestamp := now } (some userId))

/-- `handleAudioData`: dropped entirely when the sender is absent or muted;
otherwise forwarded to every other member that is neither deafened nor
speaker-disabled, with the recipient's volume factor attached. -/
def handleAudioData (wsOpen : Nat → Bool) (s : VState)
    (roomId userId : String) (audioData : String) (now : Nat) :
    VState × List (Nat × VoiceMsg) :=
  match mget s.rooms roomId with
  | none => (s, [])
  | some room =>
    match mget room.users userId with
    | none => (s, [])
    | some sender =>
      if sender.isMuted then (s, [])
      else
        (s, (room.users.filter
          (fun kv => decide (kv.1 ≠ userId) && !kv.2.isDeafened &&
            kv.2.speakerEnabled && wsOpen kv.2.ws)).map
          (fun kv => (kv.2.ws,
            { type := "voice_audio_data", roomId := roomId, userId := userId,
              data := VoiceData.audioOut
                (applyVolumeControl audioData kv.2.volume) userId
                sender.username sender.quality,
              timestamp := now })))

/-- `handleMute`: sets the mute flag, force-clears the speaking flag, and
broadcasts to the whole room (no exclusion). -/
def handleMute (wsOpen : Nat → Bool) (s : VState) (roomId userId : String)
    (now : Nat) : VState × List (Nat × VoiceMsg) :=
  match mget s.rooms roomId with
  | none => (s, [])
  | some room =>
    match mget room.users userId with
    | none => (s, [])
    | some user =>
      let user1 := { user with isMuted := true, isSpeaking := false }
      let room1 := { room with users := mset room.users userId user1 }
      let rooms1 := mset s.rooms roomId room1
      ({ s with rooms := rooms1 },
        broadcastToVoiceRoom wsOpen rooms1 roomId
          { type := "voice_mute", roomId := roomId, userId := userId,
            data := VoiceData.muteFlag user.username true,
            timestamp := now } none)

/-- `handleUnmute`: clears the mute flag and broadcasts to the whole room. -/
def handleUnmute (wsOpen : Nat → Bool) (s : VState) (roomId userId : String)
    (now : Nat) : VState × List (Nat × VoiceMsg) :=
  match mget s.rooms roomId with
  | none => (s, [])
  | some room =>
    match mget room.users userId with
    | none => (s, [])
    | some user =>
      let user1 := { user with isMuted := false }
      let room1 := { room with users := mset room.users userId user1 }
      let rooms1 := mset s.rooms roomId room1
      ({ s with rooms := rooms1 },
        broadcastToVoiceRoom wsOpen rooms1 roomId
          { type := "voice_unmute", roomId := roomId, userId := userId,
            data := VoiceData.muteFlag user.username false,
            timestamp := now } none)

/-- `roomData` argument of `handleRoomCreate`. -/
structure RoomCreateData where
  name : Option String
  description : Option String
  isPrivate : Bool
  password : Option String
  maxUsers : Option Int
deriving Repr, DecidableEq

/-- `handleRoomCreate`: allocate a room id (`'voice_' + random`), create a
temporary room, auto-join the creator through `handleRoomJoin`, and
acknowledge the creation. -/
def handleRoomCreate (wsOpen : Nat → Bool) (s : VState) (ws : Nat)
    (seed : String) (roomData : RoomCreateData) (userInfo : UserInfo)
    (now : Nat) : VState × List (Nat × VoiceMsg) :=
  let roomId := "voice_" ++ seed
  let created := createRoom s
    { id := roomId, name := jsOrStr roomData.name ("غرفة " ++ userInfo.username),
      description := roomData.description, ownerId := userInfo.id,
      isPrivate := roomData.isPrivate, password := roomData.password,
      maxUsers := jsOrInt roomData.maxUsers 10, isTemporary := true } now
  let joined := handleRoomJoin wsOpen created.1 ws roomId userInfo none now
  let roomNow := (mget joined.1.rooms roomId).getD created.2
  (joined.1, joined.2 ++ sendToUser wsOpen ws
    { type := "voice_room_create", roomId := roomId, userId := userInfo.id,
      data := VoiceData.createAck (serializeVoiceRoom roomNow)
        "تم إنشاء الغرفة الصوتية بنجاح",
      timestamp := now })

/-- `handleQualityChange`: sets the quality tier, replaces the volume unless
the supplied value is falsy (`undefined` or `0`), and acknowledges to the
user. -/
def handleQualityChange (wsOpen : Nat → Bool) (s : VState)
    (roomId userId : String) (quality : String) (volume : Option Int)
    (now : Nat) : VState × List (Nat × VoiceMsg) :=
  match mget s.rooms roomId with
  | none => (s, [])
  | some room =>
    match mget room.users userId with
    | none => (s, [])
    | some user =>
      let user1 :=
        { user with quality := quality, volume := jsOrInt volume user.volume }
      let room1 := { room with users := mset room.users userId user1 }
      let rooms1 := mset s.rooms roomId room1
      ({ s with rooms := rooms1 },
        sendToUser wsOpen user1.ws
          { type := "voice_quality_change", roomId := roomId,
            userId := userId,
            data := VoiceData.qualityAck user1.quality user1.volume
              "تم تحديث إعدادات الصوت",
            timestamp := now })

/-- `handleEchoTest`: loops the caller's payload back (after a 500 ms delay
in the source; the delayed send is collected as an output). -/
def handleEchoTest (wsOpen : Nat → Bool) (s : VState) (ws : Nat)
    (roomId userId : String) (audioData : String) (now : Nat) :
    VState × List (Nat × VoiceMsg) :=
  (s, sendToUser wsOpen ws
    { type := "voice_echo_test", roomId := roomId, userId := userId,
      data := VoiceData.echoData audioData 500 "اختبار الصدى مكتمل",
      timestamp := now })

/-- `handleNoiseReduction`: room-wide toggle, silently dropped unless the
requesting user holds the admin flag. -/
def handleNoiseReduction (wsOpen : Nat → Bool) (s : VState)
    (roomId userId : String) (enabled : Bool) (now : Nat) :
    VState × List (Nat × VoiceMsg) :=
  match mget s.rooms roomId with
  | none => (s, [])
  | some room =>
    match mget room.users userId with
    | none => (s, [])
    | some user =>
      if !user.isAdmin then (s, [])
      else
        let room1 :=
          { room with settings := { room.settings with noiseReduction := enabled } }
        let rooms1 := mset s.rooms roomId room1
        ({ s with rooms := rooms1 },
          broadcastToVoiceRoom wsOpen rooms1 roomId
            { type := "voice_room_settings", roomId := roomId,
              userId := userId,
              data := VoiceData.settingsData room1.settings
                ("تم " ++ (if enabled then "تفعيل" else "إلغاء") ++ " تقليل الضوضاء"),
              timestamp := now } none)

/-- `handleUserDisconnect`: socket close cleanup through the membership
index. -/
def handleUserDisconnect (wsOpen : Nat → Bool) (s : VState) (userId : String)
    (now : Nat) : VState × List (Nat × VoiceMsg) :=
  match mget s.userRooms userId with
  | some roomId =>
    -- `if (roomId)`: the empty string is falsy in JS
    if roomId = "" then (s, [])
    else removeUserFromRoom wsOpen s userId roomId now
  | none => (s, [])

end VoiceChatManager

/-- One incoming voice event, with the environment-supplied data (connection
id of the sender where the handler uses it, clock reading, random seed). -/
inductive VoiceOp where
  | roomJoin (ws : Nat) (roomId : String) (userInfo : UserInfo)
      (password : Option String) (now : Nat)
  | roomLeave (roomId userId : String) (now : Nat)
  | startSpeaking (roomId userId : String) (now : Nat)
  | stopSpeaking (roomId userId : String) (now : Nat)
  | audioData (roomId userId : String) (audio : String) (now : Nat)
  | muteUser (roomId userId : String) (now : Nat)
  | unmuteUser (roomId userId : String) (now : Nat)
  | roomCreate (ws : Nat) (seed : String)
      (roomData : VoiceChatManager.RoomCreateData) (userInfo : UserInfo)
      (now : Nat)
  | qualityChange (roomId userId : String) (quality : String)
      (volume : Option Int) (now : Nat)
  | echoTest (ws : Nat) (roomId userId : String) (audio : String) (now : Nat)
  | noiseReduction (roomId userId : String) (enabled : Bool) (now : Nat)
  | disconnect (userId : String) (now : Nat)

/-- `handleVoiceMessage` dispatch (plus the socket-close path). -/
def voiceStep (wsOpen : Nat → Bool) (s : VState) :
    VoiceOp → VState × List (Nat × VoiceMsg)
  | VoiceOp.roomJoin ws roomId userInfo password now =>
    VoiceChatManager.handleRoomJoin wsOpen s ws roomId userInfo password now
  | VoiceOp.roomLeave roomId userId now =>
    VoiceChatManager.handleRoomLeave wsOpen s roomId userId now
  | VoiceOp.startSpeaking roomId userId now =>
    VoiceChatManager.handleStartSpeaking wsOpen s roomId userId now
  | VoiceOp.stopSpeaking roomId userId now =>
    VoiceChatManager.handleStopSpeaking wsOpen s roomId userId now
  | VoiceOp.audioData roomId userId audio now =>
    VoiceChatManager.handleAudioData wsOpen s roomId userId audio now
  | VoiceOp.muteUser roomId userId now =>
    VoiceChatManager.handleMute wsOpen s roomId userId now
  | VoiceOp.unmuteUser roomId userId now =>
    VoiceChatManager.handleUnmute wsOpen s roomId userId now
  | VoiceOp.roomCreate ws seed roomData userInfo now =>
    VoiceChatManager.handleRoomCreate wsOpen s ws seed roomData userInfo now
  | VoiceOp.qualityChange roomId userId quality volume now =>
    VoiceChatManager.handleQualityChange wsOpen s roomId userId quality volume now
  | VoiceOp.echoTest ws roomId userId audio now =>
    VoiceChatManager.handleEchoTest wsOpen s ws roomId userId audio now
  | VoiceOp.noiseReduction roomId userId enabled now =>
    VoiceChatManager.handleNoiseReduction wsOpen s roomId userId enabled now
  | VoiceOp.disconnect userId now =>
    VoiceChatManager.handleUserDisconnect wsOpen s userId now

/-- Reachable states of the voice chat manager. -/
inductive VReach : VState → Prop where
  | init : VReach VoiceChatManager.initialVState
  | step (s : VState) (op : VoiceOp) (wsOpen : Nat → Bool) :
      VReach s → VReach (voiceStep wsOpen s op).1

/-! ## Game synchronization manager (`GameSyncManager`) -/

/-- `GamePlayer` (`ws` is the connection id). -/
structure GamePlayer where
  id : String
  username : String
  isAdmin : Bool
  isHost : Bool
  score : Int
  lives : Int
  level : Int
  position : Int × Int
  powerups : List String
  isReady : Bool
  ws : Nat
deriving Repr, DecidableEq

/-- `GameRoom.settings`. -/
structure GameSettings where
  maxPlayers : Int
  isPrivate : Bool
  password : Option String
  gameMode : String
  difficulty : String
deriving Repr, DecidableEq

/-- `GameRoom` (`players` is the insertion-ordered member map, `status` one of
`"waiting" | "playing" | "paused" | "finished"`). -/
structure GameRoom where
  id : String
  name : String
  gameType : String
  players : List (String × GamePlayer)
  gameState : JVal
  settings : GameSettings
  status : String
  createdAt : Nat
  hostId : String
deriving Repr

/-- Result of `serializePlayer`. -/
structure SGamePlayer where
  id : String
  username : String
  isAdmin : Bool
  isHost : Bool
  score : Int
  lives : Int
  level : Int
  position : Int × Int
  powerups : List String
  isReady : Bool
deriving Repr, DecidableEq

/-- Result of `serializeRoom`. -/
structure SGameRoom where
  id : String
  name : String
  gameType : String
  players : List SGamePlayer
  settings : GameSettings
  status : String
  hostId : String
deriving Repr, DecidableEq

/-- One entry of the final `results` ranking computed by `endGame`. -/
structure ResultEntry where
  id : String
  username : String
  score : Int
  level : Int
deriving Repr, DecidableEq

/-- The `data` payload of an outgoing game message, one constructor per
payload shape built by the source. -/
inductive GameData where
  | err (error : String)
  | createAck (room : SGameRoom) (message : String)
  | playerJoined (player : SGamePlayer) (room : SGameRoom)
  | playerLeft (room : SGameRoom)
  | startOk (gameState : JVal) (message : String)
  | moveData (position : Int × Int) (timestamp : Nat)
  | scoreData (score : Int) (points : Int) (itemType : String)
      (totalPlayers : Nat)
  | stateData (gameState : JVal)
  | fruitData (payload : JVal)
  | bombData (explosionPosition : Int × Int) (radius : Int) (damage : Int)
      (affectedPlayers : List (String × Int))
  | endData (reason : String) (results : List ResultEntry)
      (winner : Option ResultEntry)
deriving Repr

/-- The outgoing `GameMessage` envelope. -/
structure GameMsg where
  type : String
  roomId : String
  playerId : String
  data : GameData
  timestamp : Nat
deriving Repr

/-- The mutable state of `GameSyncManager`: `rooms`, `playerRooms` and the
timer table `gameTimers` (a timer is just its presence: armed or not). -/
structure GState where
  rooms : List (String × GameRoom)
  playerRooms : List (String × String)
  gameTimers : List (String × Unit)
deriving Repr

namespace GameSyncManager

/-- `serializePlayer`. -/
def serializePlayer (p : GamePlayer) : SGamePlayer :=
  { id := p.id, username := p.username, isAdmin := p.isAdmin,
    isHost := p.isHost, score := p.score, lives := p.lives, level := p.level,
    position := p.position, powerups := p.powerups, isReady := p.isReady }

/-- `serializeRoom`. -/
def serializeRoom (r : GameRoom) : SGameRoom :=
  { id := r.id, name := r.name, gameType := r.gameType,
    players := (r.players.map (·.2)).map serializePlayer,
    settings := r.settings, status := r.status, hostId := r.hostId }

/-- `sendToPlayer`: a send happens only when the socket is open. -/
def sendToPlayer (wsOpen : Nat → Bool) (ws : Nat) (msg : GameMsg) :
    List (Nat × GameMsg) :=
  if wsOpen ws then [(ws, msg)] else []

/-- `sendError`. -/
def sendError (wsOpen : Nat → Bool) (ws : Nat) (error : String) (now : Nat) :
    List (Nat × GameMsg) :=
  sendToPlayer wsOpen ws
    { type := "room_join", roomId := "", playerId := "",
      data := GameData.err error, timestamp := now }

/-- `broadcastToRoom`: fan-out to every member of the room whose socket is
open, skipping the optional excluded player id. -/
def broadcastToRoom (wsOpen : Nat → Bool) (rooms : List (String × GameRoom))
    (roomId : String) (msg : GameMsg) (excludePlayerId : Option String) :
    List (Nat × GameMsg) :=
  match mget rooms roomId with
  | none => []
  | some room =>
    (room.players.filter
      (fun kv => decide (some kv.1 ≠ excludePlayerId) && wsOpen kv.2.ws)).map
      (fun kv => (kv.2.ws, msg))

/-- `initializeGameState`: the per-game-type initial state template. -/
def initializeGameState (gameType : String) : JVal :=
  if gameType = "fruit_catching" then
    JVal.jobj [("fruits", JVal.jarr []), ("bombs", JVal.jarr []),
      ("powerups", JVal.jarr []), ("gameSpeed", JVal.jnum 1),
      ("spawnRate", JVal.jnum 1000), ("difficulty", JVal.jstr "medium")]
  else if gameType = "racing" then
    JVal.jobj [("track", JVal.jstr "default"), ("laps", JVal.jnum 3),
      ("checkpoints", JVal.jarr []), ("obstacles", JVal.jarr [])]
  else JVal.jobj []

/-- `calculateDistance(pos1, pos2) <= radius`, i.e.
`Math.sqrt((x2-x1)^2 + (y2-y1)^2) <= radius`, decided over the integers:
the square root of the squared distance is at most `radius` iff `radius` is
non-negative and the squared distance is at most `radius^2`. -/
def distLeRadius (pos1 pos2 : Int × Int) (radius : Int) : Bool :=
  decide (0 ≤ radius) &&
  decide ((pos2.1 - pos1.1) ^ 2 + (pos2.2 - pos1.2) ^ 2 ≤ radius * radius)

/-- The `settings` argument of `createGameRoom`, before defaulting. -/
structure GameSettingsIn where
  maxPlayers : Option Int
  isPrivate : Bool
  password : Option String
  gameMode : Option String
  difficulty : Option String
deriving Repr, DecidableEq

/-- `createGameRoom`: allocate `'room_' + random`, seed the game state from
the template, register the creator as host and sole (ready) player, reply to
the creator only. -/
def createGameRoom (wsOpen : Nat → Bool) (s : GState) (ws : Nat)
    (seed : String) (gameType : String) (settings : GameSettingsIn)
    (playerInfo : UserInfo) (now : Nat) : GState × List (Nat × GameMsg) :=
  let roomId := "room_" ++ seed
  let player : GamePlayer :=
    { id := playerInfo.id, username := playerInfo.username,
      isAdmin := playerInfo.isAdmin, isHost := true, score := 0, lives := 3,
      level := 1, position := (50, 50), powerups := [], isReady := true,
      ws := ws }
  let room : GameRoom :=
    { id := roomId, name := "غرفة " ++ playerInfo.username,
      gameType := gameType, players := mset [] playerInfo.id player,
      gameState := initializeGameState gameType,
      settings :=
        { maxPlayers := jsOrInt settings.maxPlayers 4,
          isPrivate := settings.isPrivate, password := settings.password,
          gameMode := jsOrStr settings.gameMode "competitive",
          difficulty := jsOrStr settings.difficulty "medium" },
      status := "waiting", createdAt := now, hostId := playerInfo.id }
  ({ s with
      rooms := mset s.rooms roomId room,
      playerRooms := mset s.playerRooms playerInfo.id roomId },
    sendToPlayer wsOpen ws
      { type := "room_create", roomId := roomId, playerId := playerInfo.id,
        data := GameData.createAck (serializeRoom room)
          "تم إنشاء غرفة اللعبة بنجاح",
        timestamp := now })

/-- `joinGameRoom`: admission checks (absent, already playing, full, wrong
password), then insertion of a fresh non-host player at a random position and
a `player_joined` broadcast to the room (no exclusion; the joiner is already
a member when the broadcast runs). Note: unlike the voice manager, no prior
game-room membership is removed. -/
def joinGameRoom (wsOpen : Nat → Bool) (s : GState) (ws : Nat)
    (roomId : String) (playerInfo : UserInfo) (password : Option String)
    (spawnPos : Int × Int) (now : Nat) : GState × List (Nat × GameMsg) :=
  match mget s.rooms roomId with
  | none => (s, sendError wsOpen ws "الغرفة غير موجودة" now)
  | some room =>
    if room.status = "playing" then
      (s, sendError wsOpen ws "اللعبة قيد التشغيل حالياً" now)
    else if (room.players.length : Int) ≥ room.settings.maxPlayers then
      (s, sendError wsOpen ws "الغرفة ممتلئة" now)
    else if room.settings.isPrivate && room.settings.password ≠ password then
      (s, sendError wsOpen ws "كلمة المرور خاطئة" now)
    else
      let player : GamePlayer :=
        { id := playerInfo.id, username := playerInfo.username,
          isAdmin := playerInfo.isAdmin, isHost := false, score := 0,
          lives := 3, level := 1, position := spawnPos, powerups := [],
          isReady := false, ws := ws }
      let room1 := { room with players := mset room.players playerInfo.id player }
      let rooms1 := mset s.rooms roomId room1
      ({ s with
          rooms := rooms1,
          playerRooms := mset s.playerRooms playerInfo.id roomId },
        broadcastToRoom wsOpen rooms1 roomId
          { type := "player_joined", roomId := roomId,
            playerId := playerInfo.id,
            data := GameData.playerJoined (serializePlayer player)
              (serializeRoom room1),
            timestamp := now } none)

/-- `clearGameTimer`. -/
def clearGameTimer (timers : List (String × Unit)) (roomId : String) :
    List (String × Unit) :=
  mdel timers roomId

/-- `startGameTimer`: cancel any running timer for the room, then arm a new
5-minute one. -/
def startGameTimer (timers : List (String × Unit)) (roomId : String) :
    List (String × Unit) :=
  mset (clearGameTimer timers roomId) roomId ()

/-- `leaveGameRoom`: remove the member; transfer the host role to the first
remaining member (insertion order) when the departing member was the host;
delete the room (and its timer) when it becomes empty, otherwise broadcast
`player_left`. -/
def leaveGameRoom (wsOpen : Nat → Bool) (s : GState)
    (roomId playerId : String) (now : Nat) : GState × List (Nat × GameMsg) :=
  match mget s.rooms roomId with
  | none => (s, [])
  | some room =>
    match mget room.players playerId with
    | none => (s, [])
    | some _ =>
      let players1 := mdel room.players playerId
      let playerRooms1 := mdel s.playerRooms playerId
      let room1 :=
        if room.hostId = playerId ∧ players1 ≠ [] then
          match players1 with
          | [] => { room with players := players1 }
          | kv :: rest =>
            { room with
                players := (kv.1, { kv.2 with isHost := true }) :: rest,
                hostId := kv.2.id }
        else { room with players := players1 }
      if players1.isEmpty then
        ({ rooms := mdel s.rooms roomId, playerRooms := playerRooms1,
           gameTimers := clearGameTimer s.gameTimers roomId }, [])
      else
        let rooms1 := mset s.rooms roomId room1
        ({ s with rooms := rooms1, playerRooms := playerRooms1 },
          broadcastToRoom wsOpen rooms1 roomId
            { type := "player_left", roomId := roomId, playerId := playerId,
              data := GameData.playerLeft (serializeRoom room1),
              timestamp := now } none)

/-- `startGame`: a no-op unless the requester is the room's host; a feedback
broadcast (and no state change) unless every member's ready flag is true; on
success re-initializes the game state from the template, transitions to
`playing`, and arms the game timer. -/
def startGame (wsOpen : Nat → Bool) (s : GState) (roomId hostId : String)
    (now : Nat) : GState × List (Nat × GameMsg) :=
  match mget s.rooms roomId with
  | none => (s, [])
  | some room =>
    if room.hostId ≠ hostId then (s, [])
    else if !(room.players.all (fun kv => kv.2.isReady)) then
      (s, broadcastToRoom wsOpen s.rooms roomId
        { type := "game_start", roomId := roomId, playerId := hostId,
          data := GameData.err "ليس جميع اللاعبين جاهزين",
          timestamp := now } none)
    else
      let room1 :=
        { room with
            status := "playing",
            gameState := initializeGameState room.gameType }
      let rooms1 := mset s.rooms roomId room1
      ({ s with
          rooms := rooms1,
          gameTimers := startGameTimer s.gameTimers roomId },
        broadcastToRoom wsOpen rooms1 roomId
          { type := "game_start", roomId := roomId, playerId := hostId,
            data := GameData.startOk room1.gameState "بدأت اللعبة!",
            timestamp := now } none)

/-- `handlePlayerMove`: ignored unless the room is playing; updates the
position and relays to the other members. -/
def handlePlayerMove (wsOpen : Nat → Bool) (s : GState)
    (roomId playerId : String) (position : Int × Int) (msgTimestamp now : Nat) :
    GState × List (Nat × GameMsg) :=
  match mget s.rooms roomId with
  | none => (s, [])
  | some room =>
    if room.status ≠ "playing" then (s, [])
    else
      match mget room.players playerId with
      | none => (s, [])
      | some player =>
        let player1 := { player with position := position }
        let room1 := { room with players := mset room.players playerId player1 }
        let rooms1 := mset s.rooms roomId room1
        ({ s with rooms := rooms1 },
          broadcastToRoom wsOpen rooms1 roomId
            { type := "player_move", roomId := roomId, playerId := playerId,
              data := GameData.moveData player1.position msgTimestamp,
              timestamp := now } (some playerId))

/-- `handlePlayerScore`: adds the points, requests asynchronous persistence
(fire-and-forget, no state effect), and broadcasts the updated score to the
entire room including the scorer. -/
def handlePlayerScore (wsOpen : Nat → Bool) (s : GState)
    (roomId playerId : String) (points : Int) (itemType : String) (now : Nat) :
    GState × List (Nat × GameMsg) :=
  match mget s.rooms roomId with
  | none => (s, [])
  | some room =>
    match mget room.players playerId with
    | none => (s, [])
    | some player =>
      let player1 := { player with score := player.score + points }
      let room1 := { room with players := mset room.players playerId player1 }
      let rooms1 := mset s.rooms roomId room1
      ({ s with rooms := rooms1 },
        broadcastToRoom wsOpen rooms1 roomId
          { type := "player_score", roomId := roomId, playerId := playerId,
            data := GameData.scoreData player1.score points itemType
              room1.players.length,
            timestamp := now } none)

/-- `handleFruitSpawn`: ignored unless playing; appends the fruit to
`gameState.fruits` (initializing the array when the property is falsy) and
relays the payload to the whole room. A non-array truthy `fruits` property
would make `push` throw; the dispatcher catches it, so that case is a no-op
with no broadcast. -/
def handleFruitSpawn (wsOpen : Nat → Bool) (s : GState)
    (roomId playerId : String) (payload : JVal) (now : Nat) :
    GState × List (Nat × GameMsg) :=
  match mget s.rooms roomId with
  | none => (s, [])
  | some room =>
    if room.status ≠ "playing" then (s, [])
    else
      let fruits0 := jget room.gameState "fruits"
      let gs1 :=
        if !jvalTruthy fruits0 then jset room.gameState "fruits" (JVal.jarr [])
        else room.gameState
      match jget gs1 "fruits" with
      | JVal.jarr xs =>
        let gs2 := jset gs1 "fruits" (JVal.jarr (xs ++ [jget payload "fruit"]))
        let room1 := { room with gameState := gs2 }
        let rooms1 := mset s.rooms roomId room1
        ({ s with rooms := rooms1 },
          broadcastToRoom wsOpen rooms1 roomId
            { type := "fruit_spawn", roomId := roomId, playerId := playerId,
              data := GameData.fruitData payload,
              timestamp := now } none)
      | _ => (s, [])

/-- `blastLives`: `player.lives -= damage; if (player.lives <= 0)
player.lives = 0`. -/
def blastLives (lives damage : Int) : Int :=
  if lives - damage ≤ 0 then 0 else lives - damage

/-- `handleBombExplosion`: every member within the radius of the explosion
point loses `damage` lives (floored at 0); the broadcast to the whole room
carries the recomputed list of affected members with their resulting
lives. -/
def handleBombExplosion (wsOpen : Nat → Bool) (s : GState)
    (roomId playerId : String) (explosionPosition : Int × Int)
    (radius damage : Int) (now : Nat) : GState × List (Nat × GameMsg) :=
  match mget s.rooms roomId with
  | none => (s, [])
  | some room =>
    let players1 := room.players.map (fun kv =>
      if distLeRadius kv.2.position explosionPosition radius then
        (kv.1, { kv.2 with lives := blastLives kv.2.lives damage })
      else kv)
    let room1 := { room with players := players1 }
    let rooms1 := mset s.rooms roomId room1
    let affected :=
      ((players1.map (·.2)).filter
        (fun p => distLeRadius p.position explosionPosition radius)).map
        (fun p => (p.id, p.lives))
    ({ s with rooms := rooms1 },
      broadcastToRoom wsOpen rooms1 roomId
        { type := "bomb_explosion", roomId := roomId, playerId := playerId,
          data := GameData.bombData explosionPosition radius damage affected,
          timestamp := now } none)

/-- `broadcastGameState`: merges the updates into the game state by object
spread and broadcasts the result. -/
def broadcastGameState (wsOpen : Nat → Bool) (s : GState)
    (roomId playerId : String) (updates : List (String × JVal)) (now : Nat) :
    GState × List (Nat × GameMsg) :=
  match mget s.rooms roomId with
  | none => (s, [])
  | some room =>
    let gs1 :=
      match room.gameState with
      | JVal.jobj fields => JVal.jobj (spreadMerge fields updates)
      | other => other
    let room1 := { room with gameState := gs1 }
    let rooms1 := mset s.rooms roomId room1
    ({ s with rooms := rooms1 },
      broadcastToRoom wsOpen rooms1 roomId
        { type := "game_state_update", roomId := roomId,
          playerId := playerId,
          data := GameData.stateData gs1, timestamp := now } none)

/-- Stable descending-by-score sort: the embedding of
`Array.from(room.players.values()).map(...).sort((a, b) => b.score - a.score)`
(`Array.prototype.sort` is stable, so entries with equal scores keep their
original membership order). -/
def insertDescByScore (x : ResultEntry) : List ResultEntry → List ResultEntry
  | [] => [x]
  | y :: ys =>
    if x.score < y.score then y :: insertDescByScore x ys else x :: y :: ys

/-- Stable insertion sort on the ranking entries, descending by score. -/
def sortDescByScore : List ResultEntry → List ResultEntry
  | [] => []
  | x :: xs => insertDescByScore x (sortDescByScore xs)

/-- `endGame`: mark the room finished, cancel its timer, compute the final
ranking (descending score, stable), request persistence of every member's
final score (fire-and-forget, no state effect), and broadcast the ranking
with the rank-0 entry declared winner (`results[0]`, `undefined` when the
room has no members). -/
def endGame (wsOpen : Nat → Bool) (s : GState) (roomId reason : String)
    (now : Nat) : GState × List (Nat × GameMsg) :=
  match mget s.rooms roomId with
  | none => (s, [])
  | some room =>
    let room1 := { room with status := "finished" }
    let rooms1 := mset s.rooms roomId room1
    let timers1 := clearGameTimer s.gameTimers roomId
    let results := sortDescByScore ((room1.players.map (·.2)).map
      (fun p => { id := p.id, username := p.username, score := p.score,
                  level := p.level }))
    ({ s with rooms := rooms1, gameTimers := timers1 },
      broadcastToRoom wsOpen rooms1 roomId
        { type := "game_end", roomId := roomId, playerId := "",
          data := GameData.endData reason results results.head?,
          timestamp := now } none)

/-- `handlePlayerDisconnect`: find the first room (insertion order) holding a
player with the closed socket and run `leaveGameRoom` for it. -/
def findPlayerByWs (rooms : List (String × GameRoom)) (ws : Nat) :
    Option (String × String) :=
  match rooms with
  | [] => none
  | (roomId, room) :: rest =>
    match room.players.find? (fun kv => kv.2.ws = ws) with
    | some kv => some (roomId, kv.1)
    | none => findPlayerByWs rest ws

/-- `handlePlayerDisconnect`. -/
def handlePlayerDisconnect (wsOpen : Nat → Bool) (s : GState) (ws : Nat)
    (now : Nat) : GState × List (Nat × GameMsg) :=
  match findPlayerByWs s.rooms ws with
  | some rp => leaveGameRoom wsOpen s rp.1 rp.2 now
  | none => (s, [])

end GameSyncManager

/-- One incoming game event (or the firing of an armed game timer, or a
socket close), with the environment-supplied data. -/
inductive GameOp where
  | roomCreate (ws : Nat) (seed : String) (gameType : String)
      (settings : GameSyncManager.GameSettingsIn) (playerInfo : UserInfo)
      (now : Nat)
  | roomJoin (ws : Nat) (roomId : String) (playerInfo : UserInfo)
      (password : Option String) (spawnPos : Int × Int) (now : Nat)
  | roomLeave (roomId playerId : String) (now : Nat)
  | gameStart (roomId playerId : String) (now : Nat)
  | playerMove (roomId playerId : String) (position : Int × Int)
      (msgTimestamp now : Nat)
  | playerScore (roomId playerId : String) (points : Int) (itemType : String)
      (now : Nat)
  | stateUpdate (roomId playerId : String) (updates : List (String × JVal))
      (now : Nat)
  | fruitSpawn (roomId playerId : String) (payload : JVal) (now : Nat)
  | bombExplosion (roomId playerId : String) (explosionPosition : Int × Int)
      (radius damage : Int) (now : Nat)
  | timerFire (roomId : String) (now : Nat)
  | disconnect (ws : Nat) (now : Nat)

/-- `handleGameMessage` dispatch, plus the timer-expiry path (`setTimeout`
armed by `startGameTimer`; a cancelled timer cannot fire) and the
socket-close path. `game_end` has no dispatch case in the source (it falls
to the logging default), so `endGame` is reachable only through the timer. -/
def gameStep (wsOpen : Nat → Bool) (s : GState) :
    GameOp → GState × List (Nat × GameMsg)
  | GameOp.roomCreate ws seed gameType settings playerInfo now =>
    GameSyncManager.createGameRoom wsOpen s ws seed gameType settings
      playerInfo now
  | GameOp.roomJoin ws roomId playerInfo password spawnPos now =>
    GameSyncManager.joinGameRoom wsOpen s ws roomId playerInfo password
      spawnPos now
  | GameOp.roomLeave roomId playerId now =>
    GameSyncManager.leaveGameRoom wsOpen s roomId playerId now
  | GameOp.gameStart roomId playerId now =>
    GameSyncManager.startGame wsOpen s roomId playerId now
  | GameOp.playerMove roomId playerId position msgTimestamp now =>
    GameSyncManager.handlePlayerMove wsOpen s roomId playerId position
      msgTimestamp now
  | GameOp.playerScore roomId playerId points itemType now =>
    GameSyncManager.handlePlayerScore wsOpen s roomId playerId points
      itemType now
  | GameOp.stateUpdate roomId playerId updates now =>
    GameSyncManager.broadcastGameState wsOpen s roomId playerId updates now
  | GameOp.fruitSpawn roomId playerId payload now =>
    GameSyncManager.handleFruitSpawn wsOpen s roomId playerId payload now
  | GameOp.bombExplosion roomId playerId explosionPosition radius damage now =>
    GameSyncManager.handleBombExplosion wsOpen s roomId playerId
      explosionPosition radius damage now
  | GameOp.timerFire roomId now =>
    if (mget s.gameTimers roomId).isSome then
      GameSyncManager.endGame wsOpen s roomId "timeout" now
    else (s, [])
  | GameOp.disconnect ws now =>
    GameSyncManager.handlePlayerDisconnect wsOpen s ws now

/-- Reachable states of the game synchronization manager (it starts with no
rooms). -/
inductive GReach : GState → Prop where
  | init : GReach { rooms := [], playerRooms := [], gameTimers := [] }
  | step (s : GState) (op : GameOp) (wsOpen : Nat → Bool) :
      GReach s → GReach (gameStep wsOpen s op).1

/-! ## Invariant predicates -/

/-- Membership/index coherence of the voice manager: a user present in a
room's member map is indexed to exactly that room id in `userRooms`. -/
def VoiceIndexInv (s : VState) : Prop :=
  ∀ roomId room userId, mget s.rooms roomId = some room →
    (mget room.users userId).isSome → mget s.userRooms userId = some roomId

/-- A muted voice user is never marked speaking. -/
def MutedNotSpeaking (s : VState) : Prop :=
  ∀ roomId room userId u, mget s.rooms roomId = some room →
    mget room.users userId = some u → u.isMuted = true → u.isSpeaking = false

/-- No voice room is stored under the empty id (room ids are `"general"`,
`"gaming"` or `"voice_" + seed`). -/
def NoEmptyRoomId (s : VState) : Prop := mget s.rooms "" = none

/-- The conjunction of the voice-manager invariants. -/
def VoiceInv (s : VState) : Prop :=
  VoiceIndexInv s ∧ MutedNotSpeaking s ∧ NoEmptyRoomId s

/-- Every record of the given user in the voice state is muted. -/
def MutedEverywhere (s : VState) (userId : String) : Prop :=
  ∀ roomId room u, mget s.rooms roomId = some room →
    mget room.users userId = some u → u.isMuted = true

/-- Host coherence of one game room: member keys are unique, each member
record's `id` is its key, and any member holding the host flag is the member
identified by `hostId`. -/
def HostInv (room : GameRoom) : Prop :=
  (mkeys room.players).Nodup ∧
  ∀ kv ∈ room.players, kv.2.id = kv.1 ∧ (kv.2.isHost = true → kv.1 = room.hostId)

/-- Host coherence of every stored game room. -/
def GameInv (s : GState) : Prop :=
  ∀ roomId room, mget s.rooms roomId = some room → HostInv room

/-! ## Spec-side formulations (to be compared with the code) -/

/-- The member update C4 describes for `bomb_explosion`: members within the
radius have their lives reduced by `damage` and floored at `0`, others are
untouched. -/
def bombSpecPlayers (players : List (String × GamePlayer)) (P : Int × Int)
    (R D : Int) : List (String × GamePlayer) :=
  players.map (fun kv =>
    if GameSyncManager.distLeRadius kv.2.position P R then
      (kv.1, { kv.2 with lives := max 0 (kv.2.lives - D) })
    else kv)

/-- The affected list C4 describes: exactly the members within the radius,
with their resulting lives. -/
def bombSpecAffected (players : List (String × GamePlayer)) (P : Int × Int)
    (R D : Int) : List (String × Int) :=
  (players.filter (fun kv => GameSyncManager.distLeRadius kv.2.position P R)).map
    (fun kv => (kv.2.id, max 0 (kv.2.lives - D)))

/-- The ranking entries of a room's members, in membership (insertion)
order. -/
def entriesOf (room : GameRoom) : List ResultEntry :=
  (room.players.map (·.2)).map
    (fun p => { id := p.id, username := p.username, score := p.score,
                level := p.level })

/-- The ranking C5 describes: the members sorted by descending score, ties
broken by original membership order (a stable sort). -/
def rankingOf (room : GameRoom) : List ResultEntry :=
  GameSyncManager.sortDescByScore (entriesOf room)

/-- Decidable version of `MutedEverywhere` (used to state hypotheses a
witness can evaluate). -/
def mutedEverywhereB (s : VState) (userId : String) : Bool :=
  s.rooms.all (fun kv =>
    match mget kv.2.users userId with
    | some u => u.isMuted
    | none => true)

/-! ## Concrete fixtures used by witnesses and counterexamples -/

/-- Environment in which every socket is open. -/
def allOpen : Nat → Bool := fun _ => true

def aliceInfo : UserInfo := { id := "p1", username := "alice", isAdmin := false }

def bobInfo : UserInfo := { id := "p2", username := "bob", isAdmin := false }

def carolInfo : UserInfo := { id := "p3", username := "carol", isAdmin := false }

/-- The game manager's start state. -/
def gInit : GState := { rooms := [], playerRooms := [], gameTimers := [] }

/-- A `room_create` settings payload with everything defaulted. -/
def defaultSettingsIn : GameSyncManager.GameSettingsIn :=
  { maxPlayers := none, isPrivate := false, password := none, gameMode := none,
    difficulty := none }

/-- A `room_create` settings payload with capacity 2. -/
def capTwoSettingsIn : GameSyncManager.GameSettingsIn :=
  { maxPlayers := some 2, isPrivate := false, password := none,
    gameMode := none, difficulty := none }

/-- alice creates game room `room_A` (as its host, on connection 1). -/
def gsA : GState :=
  (gameStep allOpen gInit
    (GameOp.roomCreate 1 "A" "fruit_catching" defaultSettingsIn aliceInfo 10)).1

/-- ... then bob creates game room `room_B`. -/
def gsAB : GState :=
  (gameStep allOpen gsA
    (GameOp.roomCreate 2 "B" "fruit_catching" defaultSettingsIn bobInfo 11)).1

/-- ... then alice, still a member of `room_A`, joins `room_B`. -/
def gsAB2 : GState :=
  (gameStep allOpen gsAB (GameOp.roomJoin 1 "room_B" aliceInfo none (3, 4) 12)).1

/-- alice creates `room_A`, then bob joins it. -/
def gsA2 : GState :=
  (gameStep allOpen gsA (GameOp.roomJoin 2 "room_A" bobInfo none (5, 6) 11)).1

/-- ... then alice, the current host, re-joins her own room. -/
def gsA3 : GState :=
  (gameStep allOpen gsA2 (GameOp.roomJoin 1 "room_A" aliceInfo none (7, 8) 12)).1

/-- alice creates capacity-2 room `room_C`, then bob joins it (full now). -/
def gsC2 : GState :=
  (gameStep allOpen
    (gameStep allOpen gInit
      (GameOp.roomCreate 1 "C" "racing" capTwoSettingsIn aliceInfo 1)).1
    (GameOp.roomJoin 2 "room_C" bobInfo none (0, 0) 2)).1

/-- alice joins voice room `general` (connection 1). -/
def vsGeneral1 : VState :=
  (voiceStep allOpen VoiceChatManager.initialVState
    (VoiceOp.roomJoin 1 "general" aliceInfo none 1)).1

/-- ... then bob joins `general` (connection 2). -/
def vsGeneral2 : VState :=
  (voiceStep allOpen vsGeneral1 (VoiceOp.roomJoin 2 "general" bobInfo none 2)).1

/-- ... then alice mutes herself. -/
def vsMuted : VState :=
  (voiceStep allOpen vsGeneral2 (VoiceOp.muteUser "general" "p1" 3)).1

/-! ## Association-list lemmas -/

theorem mget_mset_self {α : Type} (m : List (String × α)) (k : String) (v : α) :
    mget (mset m k v) k = some v := by
  induction m with
  | nil => simp [mget, mset]
  | cons kv rest ih =>
    by_cases h : kv.1 = k
    · simp [mget, mset, h]
    · simp [mget, mset, h, ih]

theorem mget_mset_ne {α : Type} (m : List (String × α)) (k k' : String) (v : α)
    (h : k ≠ k') : mget (mset m k v) k' = mget m k' := by
  induction m with
  | nil => simp [mget, mset, h]
  | cons kv rest ih =>
    by_cases hk : kv.1 = k
    · simp [mget, mset, hk, h, Ne.symm h]
    · by_cases hk' : kv.1 = k'
      · simp [mget, mset, hk, hk', Ne.symm h]
      · simp [mget, mset, hk, hk', ih]

theorem mget_mdel_self {α : Type} (m : List (String × α)) (k : String) :
    mget (mdel m k) k = none := by
  induction m with
  | nil => simp [mget, mdel]
  | cons kv rest ih =>
    by_cases h : kv.1 = k
    · simp [mdel, h, ih]
    · simp [mget, mdel, h, ih]

theorem mget_mdel_ne {α : Type} (m : List (String × α)) (k k' : String)
    (h : k ≠ k') : mget (mdel m k) k' = mget m k' := by
  induction m with
  | nil => simp [mdel]
  | cons kv rest ih =>
    by_cases hk : kv.1 = k
    · simp [mget, mdel, hk, h, Ne.symm h, ih]
    · by_cases hk' : kv.1 = k'
      · simp [mget, mdel, hk, hk', Ne.symm h]
      · simp [mget, mdel, hk, hk', ih]

/-- Entries of `mset m k v`: the new entry, or an old entry. -/
theorem mem_mset {α : Type} {m : List (String × α)} {k : String} {v : α}
    {x : String × α} (hx : x ∈ mset m k v) : x = (k, v) ∨ x ∈ m := by
  induction m with
  | nil => simp [mset] at hx; simp [hx]
  | cons kv rest ih =>
    by_cases h : kv.1 = k
    · rw [mset, if_pos h] at hx
      rcases List.mem_cons.mp hx with hx | hx
      · left; exact hx
      · right; exact List.mem_cons_of_mem _ hx
    · rw [mset, if_neg h] at hx
      rcases List.mem_cons.mp hx with hx | hx
      · right; exact hx ▸ List.mem_cons_self kv rest
      · rcases ih hx with h1 | h1
        · left; exact h1
        · right; exact List.mem_cons_of_mem _ h1

theorem mem_mdel {α : Type} {m : List (String × α)} {k : String}
    {x : String × α} (hx : x ∈ mdel m k) : x ∈ m := by
  induction m with
  | nil => simp [mdel] at hx
  | cons kv rest ih =>
    by_cases h : kv.1 = k
    · rw [mdel, if_pos h] at hx
      exact List.mem_cons_of_mem _ (ih hx)
    · rw [mdel, if_neg h] at hx
      rcases List.mem_cons.mp hx with hx | hx
      · exact hx ▸ List.mem_cons_self kv rest
      · exact List.mem_cons_of_mem _ (ih hx)

theorem not_mem_mkeys_of_mget_none {α : Type} (m : List (String × α)) (k : String)
    (h : mget m k = none) : k ∉ mkeys m := by
  induction m with
  | nil => simp [mkeys]
  | cons kv rest ih =>
    by_cases hk : kv.1 = k
    · simp [mget, hk] at h
    · rw [mget, if_neg hk] at h
      intro hmem
      rcases List.mem_cons.mp hmem with hmem | hmem
      · exact hk hmem.symm
      · exact ih h hmem

theorem mget_eq_none_of_not_key {α : Type} (m : List (String × α)) (k : String)
    (h : k ∉ mkeys m) : mget m k = none := by
  induction m with
  | nil => simp [mget]
  | cons kv rest ih =>
    have h1 : ¬kv.1 = k := by
      intro he
      exact h (he ▸ List.mem_cons_self kv.1 (mkeys rest))
    rw [mget, if_neg h1]
    exact ih (fun hm => h (List.mem_cons_of_mem _ hm))

theorem mkeys_mset_of_mem {α : Type} (m : List (String × α)) (k : String) (v : α)
    (h : (mget m k).isSome) : mkeys (mset m k v) = mkeys m := by
  induction m with
  | nil => simp [mget] at h
  | cons kv rest ih =>
    by_cases hk : kv.1 = k
    · simp [mset, mkeys, hk]
    · rw [mget, if_neg hk] at h
      simp [mset, mkeys, hk] at ih ⊢
      exact ih h

theorem mkeys_mset_of_not_mem {α : Type} (m : List (String × α)) (k : String) (v : α)
    (h : mget m k = none) : mkeys (mset m k v) = mkeys m ++ [k] := by
  induction m with
  | nil => simp [mset, mkeys]
  | cons kv rest ih =>
    by_cases hk : kv.1 = k
    · simp [mget, hk] at h
    · rw [mget, if_neg hk] at h
      simp [mset, mkeys, hk] at ih ⊢
      exact ih h

theorem nodup_mkeys_mset {α : Type} (m : List (String × α)) (k : String) (v : α)
    (h : (mkeys m).Nodup) : (mkeys (mset m k v)).Nodup := by
  cases hg : mget m k with
  | some w =>
    rw [mkeys_mset_of_mem m k v (by simp [hg])]
    exact h
  | none =>
    rw [mkeys_mset_of_not_mem m k v hg]
    simp [List.nodup_append, h, not_mem_mkeys_of_mget_none m k hg]

theorem mem_mkeys_mdel {α : Type} {m : List (String × α)} {k x : String}
    (hx : x ∈ mkeys (mdel m k)) : x ∈ mkeys m := by
  induction m with
  | nil => simp [mdel, mkeys] at hx
  | cons kv rest ih =>
    by_cases h : kv.1 = k
    · rw [mdel, if_pos h] at hx
      exact List.mem_cons_of_mem _ (ih hx)
    · rw [mdel, if_neg h] at hx
      rcases List.mem_cons.mp hx with hx | hx
      · exact hx ▸ List.mem_cons_self kv.1 (mkeys rest)
      · exact List.mem_cons_of_mem _ (ih hx)

theorem nodup_mkeys_mdel {α : Type} (m : List (String × α)) (k : String)
    (h : (mkeys m).Nodup) : (mkeys (mdel m k)).Nodup := by
  induction m with
  | nil => simp [mdel, mkeys]
  | cons kv rest ih =>
    have h1 : kv.1 ∉ mkeys rest := by
      intro hm
      exact (List.nodup_cons.mp h).1 hm
    have h2 : (mkeys rest).Nodup := (List.nodup_cons.mp h).2
    by_cases hk : kv.1 = k
    · rw [mdel, if_pos hk]
      exact ih h2
    · rw [mdel, if_neg hk]
      refine List.nodup_cons.mpr ⟨fun hm => h1 (mem_mkeys_mdel hm), ih h2⟩

/-- The freshly set entry is a member of the updated map. -/
theorem mset_mem_self {α : Type} (m : List (String × α)) (k : String) (v : α) :
    (k, v) ∈ mset m k v := by
  induction m with
  | nil => simp [mset]
  | cons kv rest ih =>
    by_cases h : kv.1 = k
    · simp [mset, h]
    · rw [mset, if_neg h]
      exact List.mem_cons_of_mem _ ih

/-- Entries whose key differs from the set key survive the update. -/
theorem mem_mset_of_mem_ne {α : Type} {m : List (String × α)} {k : String}
    {v : α} {x : String × α} (hx : x ∈ m) (hne : x.1 ≠ k) :
    x ∈ mset m k v := by
  induction m with
  | nil => simp at hx
  | cons kv rest ih =>
    by_cases h : kv.1 = k
    · rw [mset, if_pos h]
      rcases List.mem_cons.mp hx with hx | hx
      · exact absurd (hx ▸ h) hne
      · exact List.mem_cons_of_mem _ hx
    · rw [mset, if_neg h]
      rcases List.mem_cons.mp hx with hx | hx
      · rw [hx]
        exact List.mem_cons_self kv (mset rest k v)
      · exact List.mem_cons_of_mem _ (ih hx)

/-- A successful lookup returns an actual entry of the list. -/
theorem mem_of_mget {α : Type} {m : List (String × α)} {k : String} {v : α}
    (h : mget m k = some v) : (k, v) ∈ m := by
  induction m with
  | nil => simp [mget] at h
  | cons kv rest ih =>
    by_cases hk : kv.1 = k
    · rw [mget, if_pos hk] at h
      have : kv = (k, v) := by
        cases kv
        simp at hk h
        simp [hk, h]
      exact this ▸ List.mem_cons_self kv rest
    · rw [mget, if_neg hk] at h
      exact List.mem_cons_of_mem _ (ih h)

/-! ## Claim C9: muted senders' audio is dropped entirely -/

/-- C9: a `voice_audio_data` message whose sender's `isMuted` flag is true is
dropped entirely: nothing is forwarded to any member (regardless of the
recipients' deafen/speaker settings, which are never consulted) and neither
the room store nor any user state changes. -/
theorem claim_C9 (wsOpen : Nat → Bool) (s : VState)
    (roomId userId audio : String) (now : Nat) (room : VoiceRoom)
    (sender : VoiceUser) (hroom : mget s.rooms roomId = some room)
    (hsender : mget room.users userId = some sender)
    (hmuted : sender.isMuted = true) :
    voiceStep wsOpen s (VoiceOp.audioData roomId userId audio now) = (s, []) := by
  simp [voiceStep, VoiceChatManager.handleAudioData, hroom, hsender, hmuted]

/-- Witness for C9: alice is muted in `general`; her audio message changes
nothing and is forwarded to nobody. -/
theorem claim_C9_witness :
    voiceStep allOpen vsMuted (VoiceOp.audioData "general" "p1" "frame" 4) =
      (vsMuted, []) :=
  claim_C9 allOpen vsMuted "general" "p1" "frame" 4
    ((mget vsMuted.rooms "general").get (by rfl))
    ((mget ((mget vsMuted.rooms "general").get (by rfl)).users "p1").get (by rfl))
    (Option.some_get _).symm (Option.some_get _).symm (by rfl)

/-! ## Claim C10: quality change cannot set the volume to 0 -/

/-- C10: a `voice_quality_change` message carrying `volume = 0` leaves the
member's volume unchanged (`0` is falsy in `data.volume || user.volume`),
while any non-zero supplied value — in particular any value in 1–100 —
replaces it; consequently this interface can never turn a non-zero volume
into 0. -/
theorem claim_C10 (wsOpen : Nat → Bool) (s : VState)
    (roomId userId quality : String) (volume : Option Int) (now : Nat)
    (room : VoiceRoom) (user : VoiceUser)
    (hroom : mget s.rooms roomId = some room)
    (huser : mget room.users userId = some user) :
    (voiceStep wsOpen s
        (VoiceOp.qualityChange roomId userId quality volume now)).1 =
      { s with
          rooms := mset s.rooms roomId
            { room with
                users := mset room.users userId
                  { user with
                      quality := quality,
                      volume := jsOrInt volume user.volume } } } ∧
    (volume = some 0 → jsOrInt volume user.volume = user.volume) ∧
    (∀ v : Int, volume = some v → 1 ≤ v → v ≤ 100 →
      jsOrInt volume user.volume = v) ∧
    (jsOrInt volume user.volume = 0 → user.volume = 0) := by
  refine ⟨?_, ?_, ?_, ?_⟩
  · simp [voiceStep, VoiceChatManager.handleQualityChange, hroom, huser]
  · intro h
    simp [h, jsOrInt]
  · intro v hv h1 _
    have hne : v ≠ 0 := by omega
    simp [hv, jsOrInt, hne]
  · intro h
    match volume with
    | none => simpa [jsOrInt] using h
    | some v =>
      by_cases hv : v = 0
      · simpa [jsOrInt, hv] using h
      · simp [jsOrInt, hv] at h

/-- Witness for C10: in `general`, alice's volume (100) survives a quality
change with `volume = 0`. -/
theorem claim_C10_witness :
    (voiceStep allOpen vsGeneral2
        (VoiceOp.qualityChange "general" "p1" "high" (some 0) 5)).1 =
      { vsGeneral2 with
          rooms := mset vsGeneral2.rooms "general"
            { (mget vsGeneral2.rooms "general").get (by rfl) with
                users := mset ((mget vsGeneral2.rooms "general").get (by rfl)).users "p1"
                  { (mget ((mget vsGeneral2.rooms "general").get (by rfl)).users "p1").get (by rfl) with
                      quality := "high",
                      volume := jsOrInt (some 0)
                        ((mget ((mget vsGeneral2.rooms "general").get (by rfl)).users "p1").get (by rfl)).volume } } } ∧
    jsOrInt (some 0)
      ((mget ((mget vsGeneral2.rooms "general").get (by rfl)).users "p1").get (by rfl)).volume =
      ((mget ((mget vsGeneral2.rooms "general").get (by rfl)).users "p1").get (by rfl)).volume := by
  have h := claim_C10 allOpen vsGeneral2 "general" "p1" "high" (some 0) 5
    ((mget vsGeneral2.rooms "general").get (by rfl))
    ((mget ((mget vsGeneral2.rooms "general").get (by rfl)).users "p1").get (by rfl))
    (Option.some_get _).symm (Option.some_get _).symm
  exact ⟨h.1, h.2.1 rfl⟩

/-! ## Claim C3: `game_start` gating -/

/-- C3: a `game_start` message is a no-op (no state change, no output) unless
the requester is the room's host; when the requester is the host but some
member is not ready, a feedback broadcast is sent and no room state changes;
when the requester is the host and every member is ready, the status becomes
`playing` and the game state is re-initialized from the game-type's initial
template (so no state from a prior round remains); hence the room's status
moves from `waiting` to `playing` only when the requester is the host and
every member's ready flag was true at invocation time. -/
theorem claim_C3 (wsOpen : Nat → Bool) (s : GState) (roomId requester : String)
    (now : Nat) (room : GameRoom) (hroom : mget s.rooms roomId = some room) :
    (room.hostId ≠ requester →
      gameStep wsOpen s (GameOp.gameStart roomId requester now) = (s, [])) ∧
    (room.hostId = requester →
      room.players.all (fun kv => kv.2.isReady) = false →
      (gameStep wsOpen s (GameOp.gameStart roomId requester now)).1 = s ∧
      (gameStep wsOpen s (GameOp.gameStart roomId requester now)).2 =
        GameSyncManager.broadcastToRoom wsOpen s.rooms roomId
          { type := "game_start", roomId := roomId, playerId := requester,
            data := GameData.err "ليس جميع اللاعبين جاهزين",
            timestamp := now } none) ∧
    (room.hostId = requester →
      room.players.all (fun kv => kv.2.isReady) = true →
      mget (gameStep wsOpen s
          (GameOp.gameStart roomId requester now)).1.rooms roomId =
        some { room with
                 status := "playing",
                 gameState := GameSyncManager.initializeGameState room.gameType }) ∧
    (room.status = "waiting" →
      ∀ room1, mget (gameStep wsOpen s
          (GameOp.gameStart roomId requester now)).1.rooms roomId = some room1 →
        room1.status = "playing" →
        room.hostId = requester ∧
        room.players.all (fun kv => kv.2.isReady) = true) := by
  refine ⟨?_, ?_, ?_, ?_⟩
  · intro h
    simp [gameStep, GameSyncManager.startGame, hroom, h]
  · intro hhost hall
    constructor
    · simp [gameStep, GameSyncManager.startGame, hroom, hhost, hall]
    · simp [gameStep, GameSyncManager.startGame, hroom, hhost, hall]
  · intro hhost hall
    simp [gameStep, GameSyncManager.startGame, hroom, hhost, hall,
      mget_mset_self]
  · intro hwait room1 hget hplay
    by_cases hhost : room.hostId = requester
    · cases hall : room.players.all (fun kv => kv.2.isReady) with
      | true => exact ⟨hhost, rfl⟩
      | false =>
        exfalso
        have h1 : (gameStep wsOpen s
            (GameOp.gameStart roomId requester now)).1 = s := by
          simp [gameStep, GameSyncManager.startGame, hroom, hhost, hall]
        rw [h1, hroom] at hget
        cases hget
        rw [hwait] at hplay
        exact absurd hplay (by decide)
    · exfalso
      have h1 : (gameStep wsOpen s
          (GameOp.gameStart roomId requester now)).1 = s := by
        simp [gameStep, GameSyncManager.startGame, hroom, hhost]
      rw [h1, hroom] at hget
      cases hget
      rw [hwait] at hplay
      exact absurd hplay (by decide)

/-- Witness for C3. -/
theorem claim_C3_witness :
    gameStep allOpen gsA2 (GameOp.gameStart "room_A" "p2" 13) = (gsA2, []) :=
  (claim_C3 allOpen gsA2 "room_A" "p2" 13
    ((mget gsA2.rooms "room_A").get (by rfl))
    (Option.some_get _).symm).1 (by decide)

/-! ## Claim C4: bomb explosion proximity rule -/

theorem blastLives_eq_max (lives damage : Int) :
    GameSyncManager.blastLives lives damage = max 0 (lives - damage) := by
  unfold GameSyncManager.blastLives
  by_cases h : lives - damage ≤ 0
  · rw [if_pos h]
    omega
  · rw [if_neg h]
    omega

theorem bombCodePlayers_eq (players : List (String × GamePlayer))
    (P : Int × Int) (R D : Int) :
    players.map (fun kv =>
      if GameSyncManager.distLeRadius kv.2.position P R then
        (kv.1, { kv.2 with lives := GameSyncManager.blastLives kv.2.lives D })
      else kv) = bombSpecPlayers players P R D := by
  simp only [bombSpecPlayers, blastLives_eq_max]

theorem bombAffected_eq (players : List (String × GamePlayer)) (P : Int × Int)
    (R D : Int) :
    (((bombSpecPlayers players P R D).map (·.2)).filter
        (fun p => GameSyncManager.distLeRadius p.position P R)).map
      (fun p => (p.id, p.lives)) = bombSpecAffected players P R D := by
  induction players with
  | nil => rfl
  | cons kv rest ih =>
    by_cases h : GameSyncManager.distLeRadius kv.2.position P R
    · simp only [bombSpecPlayers, bombSpecAffected, List.map_cons,
        List.filter_cons] at ih ⊢
      simp only [h, if_pos, if_true]
      simp only [List.map_cons]
      refine congrArg₂ _ rfl ?_
      simpa [bombSpecPlayers, bombSpecAffected] using ih
    · simp only [bombSpecPlayers, bombSpecAffected, List.map_cons,
        List.filter_cons] at ih ⊢
      simp only [h, if_false, Bool.false_eq_true, if_neg, not_false_iff]
      simpa [bombSpecPlayers, bombSpecAffected] using ih

theorem distLeRadius_iff_sqrt (pos P : Int × Int) (R : Int) :
    GameSyncManager.distLeRadius pos P R = true ↔
      Real.sqrt (((P.1 - pos.1 : Int) : ℝ) ^ 2 + ((P.2 - pos.2 : Int) : ℝ) ^ 2)
        ≤ (R : ℝ) := by
  have hsq : ((P.1 - pos.1 : Int) : ℝ) ^ 2 + ((P.2 - pos.2 : Int) : ℝ) ^ 2 =
      (((P.1 - pos.1) ^ 2 + (P.2 - pos.2) ^ 2 : Int) : ℝ) := by
    push_cast
    ring
  rw [hsq, Real.sqrt_le_iff]
  unfold GameSyncManager.distLeRadius
  simp only [Bool.and_eq_true, decide_eq_true_eq]
  constructor
  · rintro ⟨h0, hle⟩
    constructor
    · exact_mod_cast h0
    · have hle' : (P.1 - pos.1) ^ 2 + (P.2 - pos.2) ^ 2 ≤ R ^ 2 := by
        rw [pow_two R]
        exact hle
      exact_mod_cast hle'
  · rintro ⟨h0, hle⟩
    have hle' : (P.1 - pos.1) ^ 2 + (P.2 - pos.2) ^ 2 ≤ R ^ 2 := by
      exact_mod_cast hle
    constructor
    · exact_mod_cast h0
    · rw [← pow_two R]
      exact hle'

/-- C4: a `bomb_explosion` at point `P` with radius `R` and damage `D`
reduces by `D` (floored at 0) the lives of exactly the members whose
Euclidean distance to `P` is at most `R`, leaves every other member's lives
unchanged, and broadcasts to the room the list of exactly the affected
members with their resulting lives.  The boolean radius test used by the
embedding decides the real Euclidean-distance comparison
(`Math.sqrt(dx^2+dy^2) <= R`), as the last conjunct states. -/
theorem claim_C4 (wsOpen : Nat → Bool) (s : GState) (roomId playerId : String)
    (P : Int × Int) (R D : Int) (now : Nat) (room : GameRoom)
    (hroom : mget s.rooms roomId = some room) :
    (gameStep wsOpen s
        (GameOp.bombExplosion roomId playerId P R D now)).1.rooms =
      mset s.rooms roomId
        { room with players := bombSpecPlayers room.players P R D } ∧
    (gameStep wsOpen s (GameOp.bombExplosion roomId playerId P R D now)).2 =
      GameSyncManager.broadcastToRoom wsOpen
        (mset s.rooms roomId
          { room with players := bombSpecPlayers room.players P R D })
        roomId
        { type := "bomb_explosion", roomId := roomId, playerId := playerId,
          data := GameData.bombData P R D
            (bombSpecAffected room.players P R D),
          timestamp := now } none ∧
    (∀ pos : Int × Int, GameSyncManager.distLeRadius pos P R = true ↔
      Real.sqrt (((P.1 - pos.1 : Int) : ℝ) ^ 2 + ((P.2 - pos.2 : Int) : ℝ) ^ 2)
        ≤ (R : ℝ)) := by
  refine ⟨?_, ?_, fun pos => distLeRadius_iff_sqrt pos P R⟩
  · simp only [gameStep, GameSyncManager.handleBombExplosion, hroom]
    rw [bombCodePlayers_eq]
  · simp only [gameStep, GameSyncManager.handleBombExplosion, hroom]
    rw [bombCodePlayers_eq, bombAffected_eq]

/-- Witness for C4: in `room_A` (alice at (50,50), bob at (5,6)), a bomb at
(5,6) with radius 3 and damage 2 yields the spec-described room update. -/
theorem claim_C4_witness :
    (gameStep allOpen gsA2
        (GameOp.bombExplosion "room_A" "p1" (5, 6) 3 2 13)).1.rooms =
      mset gsA2.rooms "room_A"
        { (mget gsA2.rooms "room_A").get (by rfl) with
            players := bombSpecPlayers
              ((mget gsA2.rooms "room_A").get (by rfl)).players (5, 6) 3 2 } :=
  (claim_C4 allOpen gsA2 "room_A" "p1" (5, 6) 3 2 13
    ((mget gsA2.rooms "room_A").get (by rfl))
    (Option.some_get _).symm).1

/-! ## Claim C5: end-of-game ranking -/

theorem insertDescByScore_perm (x : ResultEntry) (l : List ResultEntry) :
    List.Perm (GameSyncManager.insertDescByScore x l) (x :: l) := by
  induction l with
  | nil => simp [GameSyncManager.insertDescByScore]
  | cons y ys ih =>
    by_cases h : x.score < y.score
    · rw [GameSyncManager.insertDescByScore, if_pos h]
      exact (ih.cons y).trans (List.Perm.swap x y ys)
    · rw [GameSyncManager.insertDescByScore, if_neg h]

theorem insertDescByScore_pairwise (x : ResultEntry) (l : List ResultEntry)
    (h : List.Pairwise (fun a b => b.score ≤ a.score) l) :
    List.Pairwise (fun a b => b.score ≤ a.score)
      (GameSyncManager.insertDescByScore x l) := by
  induction l with
  | nil => simp [GameSyncManager.insertDescByScore]
  | cons y ys ih =>
    rcases List.pairwise_cons.mp h with ⟨hy, hys⟩
    by_cases hxy : x.score < y.score
    · rw [GameSyncManager.insertDescByScore, if_pos hxy]
      refine List.pairwise_cons.mpr ⟨?_, ih hys⟩
      intro z hz
      rcases List.mem_cons.mp ((insertDescByScore_perm x ys).mem_iff.mp hz)
        with hz | hz
      · rw [hz]
        exact hxy.le
      · exact hy z hz
    · rw [GameSyncManager.insertDescByScore, if_neg hxy]
      refine List.pairwise_cons.mpr ⟨?_, h⟩
      intro z hz
      rcases List.mem_cons.mp hz with hz | hz
      · rw [hz]
        exact not_lt.mp hxy
      · exact le_trans (hy z hz) (not_lt.mp hxy)

theorem insertDescByScore_filter (x : ResultEntry) (l : List ResultEntry)
    (c : Int) :
    (GameSyncManager.insertDescByScore x l).filter
        (fun e => decide (e.score = c)) =
      (x :: l).filter (fun e => decide (e.score = c)) := by
  induction l with
  | nil => rfl
  | cons y ys ih =>
    by_cases hxy : x.score < y.score
    · rw [GameSyncManager.insertDescByScore, if_pos hxy]
      by_cases hyc : y.score = c
      · have hxc : ¬x.score = c := by omega
        simp [List.filter_cons, hyc, hxc, ih]
      · simp [List.filter_cons, hyc, ih]
    · rw [GameSyncManager.insertDescByScore, if_neg hxy]

theorem sortDescByScore_perm (l : List ResultEntry) :
    List.Perm (GameSyncManager.sortDescByScore l) l := by
  induction l with
  | nil => simp [GameSyncManager.sortDescByScore]
  | cons x xs ih =>
    exact (insertDescByScore_perm x _).trans (ih.cons x)

theorem sortDescByScore_pairwise (l : List ResultEntry) :
    List.Pairwise (fun a b => b.score ≤ a.score)
      (GameSyncManager.sortDescByScore l) := by
  induction l with
  | nil => simp [GameSyncManager.sortDescByScore]
  | cons x xs ih => exact insertDescByScore_pairwise x _ ih

theorem sortDescByScore_filter (l : List ResultEntry) (c : Int) :
    (GameSyncManager.sortDescByScore l).filter (fun e => decide (e.score = c)) =
      l.filter (fun e => decide (e.score = c)) := by
  induction l with
  | nil => rfl
  | cons x xs ih =>
    rw [GameSyncManager.sortDescByScore, insertDescByScore_filter]
    simp [List.filter_cons, ih]

/-- C5: ending a game marks the room finished, cancels the room's timer, and
broadcasts a ranking that is a permutation of the member entries, sorted by
descending score, with ties kept in original membership order (the filter
conjunct: for every score value, the entries holding it appear in the same
order as in the membership list); the broadcast's `winner` field is the
rank-0 entry of that ranking. -/
theorem claim_C5 (wsOpen : Nat → Bool) (s : GState) (roomId reason : String)
    (now : Nat) (room : GameRoom) (hroom : mget s.rooms roomId = some room) :
    mget (GameSyncManager.endGame wsOpen s roomId reason now).1.rooms roomId =
      some { room with status := "finished" } ∧
    mget (GameSyncManager.endGame wsOpen s roomId reason now).1.gameTimers
      roomId = none ∧
    (GameSyncManager.endGame wsOpen s roomId reason now).2 =
      GameSyncManager.broadcastToRoom wsOpen
        (mset s.rooms roomId { room with status := "finished" }) roomId
        { type := "game_end", roomId := roomId, playerId := "",
          data := GameData.endData reason (rankingOf room)
            (rankingOf room).head?,
          timestamp := now } none ∧
    List.Pairwise (fun a b => b.score ≤ a.score) (rankingOf room) ∧
    List.Perm (rankingOf room) (entriesOf room) ∧
    (∀ c : Int, (rankingOf room).filter (fun e => decide (e.score = c)) =
      (entriesOf room).filter (fun e => decide (e.score = c))) := by
  refine ⟨?_, ?_, ?_, sortDescByScore_pairwise _, sortDescByScore_perm _,
    fun c => sortDescByScore_filter _ c⟩
  · simp [GameSyncManager.endGame, hroom, mget_mset_self]
  · simp [GameSyncManager.endGame, GameSyncManager.clearGameTimer, hroom,
      mget_mdel_self]
  · simp [GameSyncManager.endGame, hroom, rankingOf, entriesOf]

/-- Witness for C5: ending the game in `room_A`. -/
theorem claim_C5_witness :
    mget (GameSyncManager.endGame allOpen gsA2 "room_A" "manual" 14).1.rooms
        "room_A" =
      some { (mget gsA2.rooms "room_A").get (by rfl) with status := "finished" } ∧
    mget (GameSyncManager.endGame allOpen gsA2 "room_A" "manual" 14).1.gameTimers
      "room_A" = none := by
  have h := claim_C5 allOpen gsA2 "room_A" "manual" 14
    ((mget gsA2.rooms "room_A").get (by rfl)) (Option.some_get _).symm
  exact ⟨h.1, h.2.1⟩

/-! ## Claim C6: failed admission mutates nothing -/

/-- C6: a join request (game or voice) that fails an admission check — room
absent, room full at capacity, password mismatch, or (for game rooms) a game
already in progress — sends a typed error event to the requesting connection
only and mutates no state at all: the room store, every room's member set and
the membership index are exactly as before the request. -/
theorem claim_C6 :
    (∀ (wsOpen : Nat → Bool) (s : GState) (ws : Nat) (roomId : String)
        (playerInfo : UserInfo) (password : Option String)
        (spawnPos : Int × Int) (now : Nat),
      (mget s.rooms roomId = none ∨
        ∃ room, mget s.rooms roomId = some room ∧
          (room.status = "playing" ∨
           (room.players.length : Int) ≥ room.settings.maxPlayers ∨
           (room.settings.isPrivate = true ∧
            room.settings.password ≠ password))) →
      (gameStep wsOpen s
          (GameOp.roomJoin ws roomId playerInfo password spawnPos now)).1 = s ∧
      ∃ e, (gameStep wsOpen s
          (GameOp.roomJoin ws roomId playerInfo password spawnPos now)).2 =
        GameSyncManager.sendError wsOpen ws e now) ∧
    (∀ (wsOpen : Nat → Bool) (s : VState) (ws : Nat) (roomId : String)
        (userInfo : UserInfo) (password : Option String) (now : Nat),
      (mget s.rooms roomId = none ∨
        ∃ room, mget s.rooms roomId = some room ∧
          ((room.users.length : Int) ≥ room.settings.maxUsers ∨
           (room.settings.isPrivate = true ∧
            room.settings.password ≠ password))) →
      (voiceStep wsOpen s
          (VoiceOp.roomJoin ws roomId userInfo password now)).1 = s ∧
      ∃ e, (voiceStep wsOpen s
          (VoiceOp.roomJoin ws roomId userInfo password now)).2 =
        VoiceChatManager.sendError wsOpen ws e now) := by
  constructor
  · intro wsOpen s ws roomId playerInfo password spawnPos now hfail
    rcases hfail with hnone | ⟨room, hroom, hcond⟩
    · exact ⟨by simp [gameStep, GameSyncManager.joinGameRoom, hnone],
        "الغرفة غير موجودة",
        by simp [gameStep, GameSyncManager.joinGameRoom, hnone]⟩
    · by_cases hp : room.status = "playing"
      · exact ⟨by simp [gameStep, GameSyncManager.joinGameRoom, hroom, hp],
          "اللعبة قيد التشغيل حالياً",
          by simp [gameStep, GameSyncManager.joinGameRoom, hroom, hp]⟩
      · by_cases hf : (room.players.length : Int) ≥ room.settings.maxPlayers
        · exact ⟨by simp [gameStep, GameSyncManager.joinGameRoom, hroom, hp, hf],
            "الغرفة ممتلئة",
            by simp [gameStep, GameSyncManager.joinGameRoom, hroom, hp, hf]⟩
        · rcases hcond with hc | hc | ⟨hpriv, hpwd⟩
          · exact absurd hc hp
          · exact absurd hc hf
          · exact ⟨by simp [gameStep, GameSyncManager.joinGameRoom, hroom, hp,
                hf, hpriv, hpwd],
              "كلمة المرور خاطئة",
              by simp [gameStep, GameSyncManager.joinGameRoom, hroom, hp, hf,
                hpriv, hpwd]⟩
  · intro wsOpen s ws roomId userInfo password now hfail
    rcases hfail with hnone | ⟨room, hroom, hcond⟩
    · exact ⟨by simp [voiceStep, VoiceChatManager.handleRoomJoin, hnone],
        "الغرفة الصوتية غير موجودة",
        by simp [voiceStep, VoiceChatManager.handleRoomJoin, hnone]⟩
    · by_cases hf : (room.users.length : Int) ≥ room.settings.maxUsers
      · exact ⟨by simp [voiceStep, VoiceChatManager.handleRoomJoin, hroom, hf],
          "الغرفة الصوتية ممتلئة",
          by simp [voiceStep, VoiceChatManager.handleRoomJoin, hroom, hf]⟩
      · rcases hcond with hc | ⟨hpriv, hpwd⟩
        · exact absurd hc hf
        · exact ⟨by simp [voiceStep, VoiceChatManager.handleRoomJoin, hroom,
              hf, hpriv, hpwd],
            "كلمة مرور الغرفة الصوتية خاطئة",
            by simp [voiceStep, VoiceChatManager.handleRoomJoin, hroom, hf,
              hpriv, hpwd]⟩

/-- Witness for C6, the spec's own scenario: `room_C` has capacity 2 and two
members; carol's join attempt yields exactly one error event (to her
connection 3) and the whole state, membership included, stays as it was. -/
theorem claim_C6_witness :
    (gameStep allOpen gsC2
        (GameOp.roomJoin 3 "room_C" carolInfo none (0, 0) 3)).1 = gsC2 ∧
    (∃ e, (gameStep allOpen gsC2
        (GameOp.roomJoin 3 "room_C" carolInfo none (0, 0) 3)).2 =
      GameSyncManager.sendError allOpen 3 e 3) ∧
    ((mget gsC2.rooms "room_C").map (fun r => r.players.length)) = some 2 :=
  ⟨(claim_C6.1 allOpen gsC2 3 "room_C" carolInfo none (0, 0) 3
      (Or.inr ⟨(mget gsC2.rooms "room_C").get (by rfl),
        (Option.some_get _).symm, Or.inr (Or.inl (by decide))⟩)).1,
    (claim_C6.1 allOpen gsC2 3 "room_C" carolInfo none (0, 0) 3
      (Or.inr ⟨(mget gsC2.rooms "room_C").get (by rfl),
        (Option.some_get _).symm, Or.inr (Or.inl (by decide))⟩)).2,
    by rfl⟩

/-! ## Claim C7 (corrected): the game arrival broadcast includes the joiner -/

/-- Counterexample to C7 as stated: in `room_A` (host alice on connection 1),
bob joins on connection 2; the `player_joined` arrival broadcast is delivered
to connections 1 *and* 2 — the joiner receives the arrival event, so the
broadcast is not restricted to the previously present members. -/
theorem claim_C7_counterexample :
    ((gameStep allOpen gsA
        (GameOp.roomJoin 2 "room_A" bobInfo none (5, 6) 11)).2).map
        (fun x => (x.1, x.2.type)) =
      [(1, "player_joined"), (2, "player_joined")] := by
  rfl

/-- C7 (amended): on every successful game-room join, the arrival broadcast
is fanned out to the members of the room *after* the join whose sockets are
open, in membership order, with no excluded id — so it reaches the
previously present members *and the joiner as well* (the source calls
`broadcastToRoom` with no exclusion argument after inserting the joiner;
contrast the voice join, which does exclude the joiner). -/
theorem claim_C7 (wsOpen : Nat → Bool) (s : GState) (ws : Nat)
    (roomId : String) (playerInfo : UserInfo) (password : Option String)
    (spawnPos : Int × Int) (now : Nat) (room : GameRoom)
    (hroom : mget s.rooms roomId = some room)
    (hplay : room.status ≠ "playing")
    (hfull : (room.players.length : Int) < room.settings.maxPlayers)
    (hpwd : room.settings.isPrivate = false ∨
      room.settings.password = password) :
    ((gameStep wsOpen s
        (GameOp.roomJoin ws roomId playerInfo password spawnPos now)).2).map
        Prod.fst =
      ((mset room.players playerInfo.id
          { id := playerInfo.id, username := playerInfo.username,
            isAdmin := playerInfo.isAdmin, isHost := false, score := 0,
            lives := 3, level := 1, position := spawnPos, powerups := [],
            isReady := false, ws := ws }).filter
        (fun kv => wsOpen kv.2.ws)).map (fun kv => kv.2.ws) ∧
    (∀ x ∈ (gameStep wsOpen s
        (GameOp.roomJoin ws roomId playerInfo password spawnPos now)).2,
      x.2.type = "player_joined") ∧
    (wsOpen ws = true →
      ws ∈ ((gameStep wsOpen s
        (GameOp.roomJoin ws roomId playerInfo password spawnPos now)).2).map
        Prod.fst) ∧
    (∀ kv ∈ room.players, kv.1 ≠ playerInfo.id → wsOpen kv.2.ws = true →
      kv.2.ws ∈ ((gameStep wsOpen s
        (GameOp.roomJoin ws roomId playerInfo password spawnPos now)).2).map
        Prod.fst) := by
  have hplayB : ¬room.status = "playing" := hplay
  have hfullB : ¬(room.players.length : Int) ≥ room.settings.maxPlayers :=
    not_le.mpr hfull
  have hpwdB : ¬(room.settings.isPrivate = true ∧
      ¬room.settings.password = password) := by
    rcases hpwd with h | h
    · rintro ⟨h1, _⟩
      rw [h] at h1
      simp at h1
    · rintro ⟨_, h2⟩
      exact h2 h
  have hstep : (gameStep wsOpen s
      (GameOp.roomJoin ws roomId playerInfo password spawnPos now)).2 =
      ((mset room.players playerInfo.id
          { id := playerInfo.id, username := playerInfo.username,
            isAdmin := playerInfo.isAdmin, isHost := false, score := 0,
            lives := 3, level := 1, position := spawnPos, powerups := [],
            isReady := false, ws := ws }).filter
        (fun kv => wsOpen kv.2.ws)).map (fun kv => (kv.2.ws,
          ({ type := "player_joined", roomId := roomId,
             playerId := playerInfo.id,
             data := GameData.playerJoined
               (GameSyncManager.serializePlayer
                 { id := playerInfo.id, username := playerInfo.username,
                   isAdmin := playerInfo.isAdmin, isHost := false, score := 0,
                   lives := 3, level := 1, position := spawnPos,
                   powerups := [], isReady := false, ws := ws })
               (GameSyncManager.serializeRoom
                 { room with
                     players := mset room.players playerInfo.id
                       { id := playerInfo.id, username := playerInfo.username,
                         isAdmin := playerInfo.isAdmin, isHost := false,
                         score := 0, lives := 3, level := 1,
                         position := spawnPos, powerups := [],
                         isReady := false, ws := ws } }),
             timestamp := now } : GameMsg))) := by
    simp [gameStep, GameSyncManager.joinGameRoom, hroom, hplayB, hfullB,
      hpwdB, GameSyncManager.broadcastToRoom, mget_mset_self]
  refine ⟨?_, ?_, ?_, ?_⟩
  · rw [hstep, List.map_map]
    rfl
  · intro x hx
    rw [hstep] at hx
    rcases List.mem_map.mp hx with ⟨kv, _, hkv⟩
    rw [← hkv]
  · intro hopen
    rw [hstep, List.map_map]
    have hmem : ((playerInfo.id : String),
        ({ id := playerInfo.id, username := playerInfo.username,
           isAdmin := playerInfo.isAdmin, isHost := false, score := 0,
           lives := 3, level := 1, position := spawnPos, powerups := [],
           isReady := false, ws := ws } : GamePlayer)) ∈
        mset room.players playerInfo.id
          { id := playerInfo.id, username := playerInfo.username,
            isAdmin := playerInfo.isAdmin, isHost := false, score := 0,
            lives := 3, level := 1, position := spawnPos, powerups := [],
            isReady := false, ws := ws } := mset_mem_self _ _ _
    exact List.mem_map.mpr ⟨_, List.mem_filter.mpr ⟨hmem, hopen⟩, rfl⟩
  · intro kv hkv hid hopen
    rw [hstep, List.map_map]
    exact List.mem_map.mpr ⟨kv,
      List.mem_filter.mpr ⟨mem_mset_of_mem_ne hkv hid, hopen⟩, rfl⟩

/-- Witness for the amended C7: bob's join into `room_A` reaches both open
connections, his own (2) included. -/
theorem claim_C7_witness :
    2 ∈ ((gameStep allOpen gsA
        (GameOp.roomJoin 2 "room_A" bobInfo none (5, 6) 11)).2).map Prod.fst ∧
    1 ∈ ((gameStep allOpen gsA
        (GameOp.roomJoin 2 "room_A" bobInfo none (5, 6) 11)).2).map Prod.fst := by
  have h := claim_C7 allOpen gsA 2 "room_A" bobInfo none (5, 6) 11
    ((mget gsA.rooms "room_A").get (by rfl)) (Option.some_get _).symm
    (by decide) (by decide) (Or.inl (by decide))
  refine ⟨h.2.2.1 rfl, ?_⟩
  have h4 := h.2.2.2 (("p1" : String),
    ({ id := "p1", username := "alice", isAdmin := false, isHost := true,
       score := 0, lives := 3, level := 1, position := (50, 50),
       powerups := [], isReady := true, ws := 1 } : GamePlayer)) (by decide)
    (by decide) rfl
  exact h4

/-! ## Voice-manager invariants (for claims C1 and C8) -/

theorem voiceInv_init : VoiceInv VoiceChatManager.initialVState := by
  have hempty : ∀ kv ∈ VoiceChatManager.initialVState.rooms,
      kv.2.users = ([] : List (String × VoiceUser)) := by decide
  refine ⟨?_, ?_, ?_⟩
  · intro rid room uid hroom huser
    have h3 := hempty _ (mem_of_mget hroom)
    rw [h3] at huser
    simp [mget] at huser
  · intro rid room uid u hroom huser _
    have h3 := hempty _ (mem_of_mget hroom)
    rw [h3] at huser
    simp [mget] at huser
  · show mget VoiceChatManager.initialVState.rooms "" = none
    rfl

theorem noEmpty_mset (rooms : List (String × VoiceRoom)) (rid : String)
    (room1 : VoiceRoom) (hroom : (mget rooms rid).isSome)
    (hne : mget rooms "" = none) : mget (mset rooms rid room1) "" = none := by
  by_cases h : rid = ""
  · subst h
    rw [hne] at hroom
    simp at hroom
  · rw [mget_mset_ne _ _ _ _ h]
    exact hne

theorem noEmpty_mdel (rooms : List (String × VoiceRoom)) (k : String)
    (hne : mget rooms "" = none) : mget (mdel rooms k) "" = none := by
  by_cases h : k = ""
  · subst h
    exact mget_mdel_self _ _
  · rw [mget_mdel_ne _ _ _ h]
    exact hne

/-- Replacing one room's entry with a room whose member domain shrank (and
whose members still satisfy muted → not speaking) preserves the voice
invariants. -/
theorem voiceInv_updateRoom (s : VState) (rid : String) (room room1 : VoiceRoom)
    (hroom : mget s.rooms rid = some room)
    (hdom : ∀ uid, (mget room1.users uid).isSome → (mget room.users uid).isSome)
    (hgood : ∀ uid u, mget room1.users uid = some u → u.isMuted = true →
      u.isSpeaking = false)
    (hInv : VoiceInv s) :
    VoiceInv { s with rooms := mset s.rooms rid room1 } := by
  obtain ⟨hK, hM, hE⟩ := hInv
  refine ⟨?_, ?_, ?_⟩
  · intro rid' room' uid hroom' huser
    by_cases h : rid = rid'
    · subst h
      rw [mget_mset_self] at hroom'
      cases hroom'
      exact hK rid room uid hroom (hdom uid huser)
    · rw [mget_mset_ne _ _ _ _ h] at hroom'
      exact hK rid' room' uid hroom' huser
  · intro rid' room' uid u hroom' huser hmut
    by_cases h : rid = rid'
    · subst h
      rw [mget_mset_self] at hroom'
      cases hroom'
      exact hgood uid u huser hmut
    · rw [mget_mset_ne _ _ _ _ h] at hroom'
      exact hM rid' room' uid u hroom' huser hmut
  · exact noEmpty_mset s.rooms rid room1 (by simp [hroom]) hE

theorem voiceInv_removeUserFromRoom (wsOpen : Nat → Bool) (s : VState)
    (userId roomId : String) (now : Nat) (hInv : VoiceInv s) :
    VoiceInv (VoiceChatManager.removeUserFromRoom wsOpen s userId roomId now).1 := by
  obtain ⟨hK, hM, hE⟩ := hInv
  cases hroom : mget s.rooms roomId with
  | none =>
    have hred : (VoiceChatManager.removeUserFromRoom wsOpen s userId roomId
        now).1 = s := by
      simp [VoiceChatManager.removeUserFromRoom, hroom]
    rw [hred]
    exact ⟨hK, hM, hE⟩
  | some room =>
    cases huser : mget room.users userId with
    | none =>
      have hred : (VoiceChatManager.removeUserFromRoom wsOpen s userId roomId
          now).1 = s := by
        simp [VoiceChatManager.removeUserFromRoom, hroom, huser]
      rw [hred]
      exact ⟨hK, hM, hE⟩
    | some user =>
      have hred : (VoiceChatManager.removeUserFromRoom wsOpen s userId roomId
          now).1 =
          { rooms :=
              if (room.isTemporary && (mdel room.users userId).isEmpty) = true
              then mdel (mset s.rooms roomId
                { room with users := mdel room.users userId }) roomId
              else mset s.rooms roomId
                { room with users := mdel room.users userId },
            userRooms := mdel s.userRooms userId } := by
        simp [VoiceChatManager.removeUserFromRoom, hroom, huser]
      rw [hred]
      have hK1 : VoiceIndexInv
          { rooms := mset s.rooms roomId
              { room with users := mdel room.users userId },
            userRooms := mdel s.userRooms userId } := by
        intro rid' room' uid' hroom' huser'
        simp only at hroom' huser' ⊢
        by_cases h : roomId = rid'
        · subst h
          rw [mget_mset_self] at hroom'
          cases hroom'
          simp only at huser'
          by_cases hu : userId = uid'
          · subst hu
            rw [mget_mdel_self] at huser'
            simp at huser'
          · rw [mget_mdel_ne _ _ _ hu] at huser'
            rw [mget_mdel_ne s.userRooms userId uid' hu]
            exact hK roomId room uid' hroom huser'
        · rw [mget_mset_ne _ _ _ _ h] at hroom'
          have hu : userId ≠ uid' := by
            intro he
            subst he
            have hidx := hK rid' room' userId hroom' huser'
            have hidx2 := hK roomId room userId hroom (by simp [huser])
            rw [hidx] at hidx2
            exact h (Option.some.inj hidx2).symm
          rw [mget_mdel_ne s.userRooms userId uid' hu]
          exact hK rid' room' uid' hroom' huser'
      have hM1 : MutedNotSpeaking
          { rooms := mset s.rooms roomId
              { room with users := mdel room.users userId },
            userRooms := mdel s.userRooms userId } := by
        intro rid' room' uid' u hroom' huser' hmut
        simp only at hroom' huser'
        by_cases h : roomId = rid'
        · subst h
          rw [mget_mset_self] at hroom'
          cases hroom'
          simp only at huser'
          by_cases hu : userId = uid'
          · subst hu
            rw [mget_mdel_self] at huser'
            simp at huser'
          · rw [mget_mdel_ne _ _ _ hu] at huser'
            exact hM roomId room uid' u hroom huser' hmut
        · rw [mget_mset_ne _ _ _ _ h] at hroom'
          exact hM rid' room' uid' u hroom' huser' hmut
      have hE1 : mget (mset s.rooms roomId
          { room with users := mdel room.users userId }) "" = none :=
        noEmpty_mset s.rooms roomId _ (by simp [hroom]) hE
      by_cases hdel :
          (room.isTemporary && (mdel room.users userId).isEmpty) = true
      · rw [if_pos hdel]
        refine ⟨?_, ?_, ?_⟩
        · intro rid' room' uid' hroom' huser'
          simp only at hroom' huser' ⊢
          have hne : roomId ≠ rid' := by
            intro he
            subst he
            rw [mget_mdel_self] at hroom'
            simp at hroom'
          rw [mget_mdel_ne _ _ _ hne] at hroom'
          exact hK1 rid' room' uid' hroom' huser'
        · intro rid' room' uid' u hroom' huser' hmut
          simp only at hroom' huser'
          have hne : roomId ≠ rid' := by
            intro he
            subst he
            rw [mget_mdel_self] at hroom'
            simp at hroom'
          rw [mget_mdel_ne _ _ _ hne] at hroom'
          exact hM1 rid' room' uid' u hroom' huser' hmut
        · exact noEmpty_mdel _ _ hE1
      · rw [if_neg hdel]
        exact ⟨hK1, hM1, hE1⟩

/-- Inserting a fresh unmuted user into the target room preserves the voice
invariants, provided the user is currently a member of no room. -/
theorem voiceInv_joinCoreSome (s1 : VState) (roomId uid : String)
    (newUser : VoiceUser) (r1 : VoiceRoom)
    (hr1 : mget s1.rooms roomId = some r1)
    (hnm : newUser.isMuted = false)
    (hInv1 : VoiceInv s1)
    (hF2 : ∀ rid' room', mget s1.rooms rid' = some room' →
      mget room'.users uid = none) :
    VoiceInv
      { rooms := mset s1.rooms roomId
          { r1 with users := mset r1.users uid newUser },
        userRooms := mset s1.userRooms uid roomId } := by
  obtain ⟨hK, hM, hE⟩ := hInv1
  refine ⟨?_, ?_, ?_⟩
  · intro rid' room' uid' hroom' huser'
    simp only at hroom' huser' ⊢
    by_cases hu : uid = uid'
    · subst hu
      have hrid : roomId = rid' := by
        by_contra hne
        rw [mget_mset_ne _ _ _ _ hne] at hroom'
        have := hF2 rid' room' hroom'
        rw [this] at huser'
        simp at huser'
      subst hrid
      rw [mget_mset_self]
    · rw [mget_mset_ne _ _ _ _ hu]
      by_cases h : roomId = rid'
      · subst h
        rw [mget_mset_self] at hroom'
        cases hroom'
        simp only at huser'
        rw [mget_mset_ne _ _ _ _ hu] at huser'
        exact hK roomId r1 uid' hr1 huser'
      · rw [mget_mset_ne _ _ _ _ h] at hroom'
        exact hK rid' room' uid' hroom' huser'
  · intro rid' room' uid' u hroom' huser' hmut
    simp only at hroom' huser'
    by_cases h : roomId = rid'
    · subst h
      rw [mget_mset_self] at hroom'
      cases hroom'
      simp only at huser'
      by_cases hu : uid = uid'
      · subst hu
        rw [mget_mset_self] at huser'
        cases huser'
        rw [hnm] at hmut
        simp at hmut
      · rw [mget_mset_ne _ _ _ _ hu] at huser'
        exact hM roomId r1 uid' u hr1 huser' hmut
    · rw [mget_mset_ne _ _ _ _ h] at hroom'
      exact hM rid' room' uid' u hroom' huser' hmut
  · exact noEmpty_mset s1.rooms roomId _ (by simp [hr1]) hE

/-- The dangling variant: the target room entry was deleted by the eviction,
so only the index is written. -/
theorem voiceInv_joinCoreNone (s1 : VState) (roomId uid : String)
    (hInv1 : VoiceInv s1)
    (hF2 : ∀ rid' room', mget s1.rooms rid' = some room' →
      mget room'.users uid = none) :
    VoiceInv { rooms := s1.rooms, userRooms := mset s1.userRooms uid roomId } := by
  obtain ⟨hK, hM, hE⟩ := hInv1
  refine ⟨?_, ?_, ?_⟩
  · intro rid' room' uid' hroom' huser'
    simp only at hroom' huser' ⊢
    by_cases hu : uid = uid'
    · subst hu
      have := hF2 rid' room' hroom'
      rw [this] at huser'
      simp at huser'
    · rw [mget_mset_ne _ _ _ _ hu]
      exact hK rid' room' uid' hroom' huser'
  · intro rid' room' uid' u hroom' huser' hmut
    exact hM rid' room' uid' u hroom' huser' hmut
  · exact hE

/-- After evicting a user from the room their index points at, the user is a
member of no room. -/
theorem removeUser_notMember (wsOpen : Nat → Bool) (s : VState)
    (uid p : String) (now : Nat) (hK : VoiceIndexInv s)
    (hprev : mget s.userRooms uid = some p) :
    ∀ rid' room',
      mget (VoiceChatManager.removeUserFromRoom wsOpen s uid p now).1.rooms
        rid' = some room' →
      mget room'.users uid = none := by
  intro rid' room' hroom'
  cases hmem : mget room'.users uid with
  | none => rfl
  | some u =>
    exfalso
    cases hroomP : mget s.rooms p with
    | none =>
      rw [show (VoiceChatManager.removeUserFromRoom wsOpen s uid p now).1 = s
          by simp [VoiceChatManager.removeUserFromRoom, hroomP]] at hroom'
      have hidx := hK rid' room' uid hroom' (by simp [hmem])
      rw [hprev] at hidx
      have : rid' = p := (Option.some.inj hidx).symm
      subst this
      rw [hroom'] at hroomP
      simp at hroomP
    | some roomP =>
      cases huserP : mget roomP.users uid with
      | none =>
        rw [show (VoiceChatManager.removeUserFromRoom wsOpen s uid p now).1 = s
            by simp [VoiceChatManager.removeUserFromRoom, hroomP, huserP]]
          at hroom'
        have hidx := hK rid' room' uid hroom' (by simp [hmem])
        rw [hprev] at hidx
        have : rid' = p := (Option.some.inj hidx).symm
        subst this
        rw [hroom'] at hroomP
        cases hroomP
        rw [hmem] at huserP
        simp at huserP
      | some userP =>
        rw [show (VoiceChatManager.removeUserFromRoom wsOpen s uid p now).1 =
            { rooms :=
                if (roomP.isTemporary && (mdel roomP.users uid).isEmpty) = true
                then mdel (mset s.rooms p
                  { roomP with users := mdel roomP.users uid }) p
                else mset s.rooms p
                  { roomP with users := mdel roomP.users uid },
              userRooms := mdel s.userRooms uid }
            by simp [VoiceChatManager.removeUserFromRoom, hroomP, huserP]]
          at hroom'
        simp only at hroom'
        have hbase : rid' ≠ p → mget s.rooms rid' = some room' := by
          intro hne
          by_cases hdel : (roomP.isTemporary &&
              (mdel roomP.users uid).isEmpty) = true
          · rw [if_pos hdel] at hroom'
            rw [mget_mdel_ne _ _ _ (fun he => hne he.symm)] at hroom'
            rwa [mget_mset_ne _ _ _ _ (fun he => hne he.symm)] at hroom'
          · rw [if_neg hdel] at hroom'
            rwa [mget_mset_ne _ _ _ _ (fun he => hne he.symm)] at hroom'
        by_cases hrid : rid' = p
        · subst hrid
          by_cases hdel : (roomP.isTemporary &&
              (mdel roomP.users uid).isEmpty) = true
          · rw [if_pos hdel, mget_mdel_self] at hroom'
            simp at hroom'
          · rw [if_neg hdel, mget_mset_self] at hroom'
            cases hroom'
            simp only at hmem
            rw [mget_mdel_self] at hmem
            simp at hmem
        · have hs := hbase hrid
          have hidx := hK rid' room' uid hs (by simp [hmem])
          rw [hprev] at hidx
          exact hrid (Option.some.inj hidx).symm

theorem voiceInv_handleRoomJoin (wsOpen : Nat → Bool) (s : VState) (ws : Nat)
    (roomId : String) (userInfo : UserInfo) (password : Option String)
    (now : Nat) (hInv : VoiceInv s) :
    VoiceInv (VoiceChatManager.handleRoomJoin wsOpen s ws roomId userInfo
      password now).1 := by
  obtain ⟨hK, hM, hE⟩ := hInv
  cases hroom : mget s.rooms roomId with
  | none =>
    rw [show (VoiceChatManager.handleRoomJoin wsOpen s ws roomId userInfo
        password now).1 = s by
      simp [VoiceChatManager.handleRoomJoin, hroom]]
    exact ⟨hK, hM, hE⟩
  | some room =>
    by_cases hfull : (room.users.length : Int) ≥ room.settings.maxUsers
    · rw [show (VoiceChatManager.handleRoomJoin wsOpen s ws roomId userInfo
          password now).1 = s by
        simp [VoiceChatManager.handleRoomJoin, hroom, hfull]]
      exact ⟨hK, hM, hE⟩
    · by_cases hpw : room.settings.isPrivate = true ∧
          ¬room.settings.password = password
      · rw [show (VoiceChatManager.handleRoomJoin wsOpen s ws roomId userInfo
            password now).1 = s by
          simp [VoiceChatManager.handleRoomJoin, hroom, hfull, hpw]]
        exact ⟨hK, hM, hE⟩
      · cases hprev : mget s.userRooms userInfo.id with
        | none =>
          have hF2 : ∀ rid' room', mget s.rooms rid' = some room' →
              mget room'.users userInfo.id = none := by
            intro rid' room' hroom'
            cases hmem : mget room'.users userInfo.id with
            | none => rfl
            | some u =>
              exfalso
              have hidx := hK rid' room' userInfo.id hroom' (by simp [hmem])
              rw [hidx] at hprev
              simp at hprev
          rw [show (VoiceChatManager.handleRoomJoin wsOpen s ws roomId userInfo
              password now).1 =
              ({ rooms := mset s.rooms roomId
                  { room with
                      users := mset room.users userInfo.id
                        (VoiceChatManager.freshVoiceUser userInfo ws now) },
                 userRooms := mset s.userRooms userInfo.id roomId } : VState) by
            simp [VoiceChatManager.handleRoomJoin, hroom, hfull, hpw, hprev]]
          exact voiceInv_joinCoreSome s roomId userInfo.id _ room hroom rfl
            ⟨hK, hM, hE⟩ hF2
        | some p =>
          by_cases hpe : p = ""
          · subst hpe
            have hF2 : ∀ rid' room', mget s.rooms rid' = some room' →
                mget room'.users userInfo.id = none := by
              intro rid' room' hroom'
              cases hmem : mget room'.users userInfo.id with
              | none => rfl
              | some u =>
                exfalso
                have hidx := hK rid' room' userInfo.id hroom' (by simp [hmem])
                rw [hprev] at hidx
                have hr : rid' = "" := Option.some.inj hidx.symm
                subst hr
                have hE' : mget s.rooms "" = none := hE
                rw [hE'] at hroom'
                simp at hroom'
            rw [show (VoiceChatManager.handleRoomJoin wsOpen s ws roomId
                userInfo password now).1 =
                ({ rooms := mset s.rooms roomId
                    { room with
                        users := mset room.users userInfo.id
                          (VoiceChatManager.freshVoiceUser userInfo ws now) },
                   userRooms := mset s.userRooms userInfo.id roomId } :
                  VState) by
              simp [VoiceChatManager.handleRoomJoin, hroom, hfull, hpw, hprev]]
            exact voiceInv_joinCoreSome s roomId userInfo.id _ room hroom rfl
              ⟨hK, hM, hE⟩ hF2
          · have hInv1 : VoiceInv (VoiceChatManager.removeUserFromRoom wsOpen
                s userInfo.id p now).1 :=
              voiceInv_removeUserFromRoom wsOpen s userInfo.id p now
                ⟨hK, hM, hE⟩
            have hF2 := removeUser_notMember wsOpen s userInfo.id p now hK
              hprev
            cases hx : mget (VoiceChatManager.removeUserFromRoom wsOpen s
                userInfo.id p now).1.rooms roomId with
            | some r1 =>
              rw [show (VoiceChatManager.handleRoomJoin wsOpen s ws roomId
                  userInfo password now).1 =
                  ({ rooms := mset (VoiceChatManager.removeUserFromRoom wsOpen
                        s userInfo.id p now).1.rooms roomId
                      { r1 with
                          users := mset r1.users userInfo.id
                            (VoiceChatManager.freshVoiceUser userInfo ws now) },
                     userRooms := mset (VoiceChatManager.removeUserFromRoom
                        wsOpen s userInfo.id p now).1.userRooms userInfo.id
                        roomId } : VState) by
                simp [VoiceChatManager.handleRoomJoin, hroom, hfull, hpw,
                  hprev, hpe, hx]]
              exact voiceInv_joinCoreSome _ roomId userInfo.id _ r1 hx rfl
                hInv1 hF2
            | none =>
              rw [show (VoiceChatManager.handleRoomJoin wsOpen s ws roomId
                  userInfo password now).1 =
                  ({ rooms := (VoiceChatManager.removeUserFromRoom wsOpen s
                        userInfo.id p now).1.rooms,
                     userRooms := mset (VoiceChatManager.removeUserFromRoom
                        wsOpen s userInfo.id p now).1.userRooms userInfo.id
                        roomId } : VState) by
                simp [VoiceChatManager.handleRoomJoin, hroom, hfull, hpw,
                  hprev, hpe, hx]]
              exact voiceInv_joinCoreNone _ roomId userInfo.id hInv1 hF2

theorem voiceInv_handleStartSpeaking (wsOpen : Nat → Bool) (s : VState)
    (roomId userId : String) (now : Nat) (hInv : VoiceInv s) :
    VoiceInv (VoiceChatManager.handleStartSpeaking wsOpen s roomId userId
      now).1 := by
  cases hroom : mget s.rooms roomId with
  | none =>
    rw [show (VoiceChatManager.handleStartSpeaking wsOpen s roomId userId
        now).1 = s by simp [VoiceChatManager.handleStartSpeaking, hroom]]
    exact hInv
  | some room =>
    cases huser : mget room.users userId with
    | none =>
      rw [show (VoiceChatManager.handleStartSpeaking wsOpen s roomId userId
          now).1 = s by
        simp [VoiceChatManager.handleStartSpeaking, hroom, huser]]
      exact hInv
    | some user =>
      by_cases hmut : user.isMuted
      · rw [show (VoiceChatManager.handleStartSpeaking wsOpen s roomId userId
            now).1 = s by
          simp [VoiceChatManager.handleStartSpeaking, hroom, huser, hmut]]
        exact hInv
      · rw [show (VoiceChatManager.handleStartSpeaking wsOpen s roomId userId
            now).1 =
            { s with
                rooms := mset s.rooms roomId
                  { room with
                      users := mset room.users userId
                        { user with isSpeaking := true, lastActivity := now } } } by
          simp [VoiceChatManager.handleStartSpeaking, hroom, huser, hmut]]
        refine voiceInv_updateRoom s roomId room _ hroom ?_ ?_ hInv
        · intro uid h
          by_cases h2 : userId = uid
          · subst h2
            simp [huser]
          · rwa [mget_mset_ne _ _ _ _ h2] at h
        · intro uid u h hm
          by_cases h2 : userId = uid
          · subst h2
            rw [mget_mset_self] at h
            cases h
            simp only at hm
            exact absurd hm hmut
          · rw [mget_mset_ne _ _ _ _ h2] at h
            exact hInv.2.1 roomId room uid u hroom h hm

theorem voiceInv_handleStopSpeaking (wsOpen : Nat → Bool) (s : VState)
    (roomId userId : String) (now : Nat) (hInv : VoiceInv s) :
    VoiceInv (VoiceChatManager.handleStopSpeaking wsOpen s roomId userId
      now).1 := by
  cases hroom : mget s.rooms roomId with
  | none =>
    rw [show (VoiceChatManager.handleStopSpeaking wsOpen s roomId userId
        now).1 = s by simp [VoiceChatManager.handleStopSpeaking, hroom]]
    exact hInv
  | some room =>
    cases huser : mget room.users userId with
    | none =>
      rw [show (VoiceChatManager.handleStopSpeaking wsOpen s roomId userId
          now).1 = s by
        simp [VoiceChatManager.handleStopSpeaking, hroom, huser]]
      exact hInv
    | some user =>
      rw [show (VoiceChatManager.handleStopSpeaking wsOpen s roomId userId
          now).1 =
          { s with
              rooms := mset s.rooms roomId
                { room with
                    users := mset room.users userId
                      { user with isSpeaking := false } } } by
        simp [VoiceChatManager.handleStopSpeaking, hroom, huser]]
      refine voiceInv_updateRoom s roomId room _ hroom ?_ ?_ hInv
      · intro uid h
        by_cases h2 : userId = uid
        · subst h2
          simp [huser]
        · rwa [mget_mset_ne _ _ _ _ h2] at h
      · intro uid u h hm
        by_cases h2 : userId = uid
        · subst h2
          rw [mget_mset_self] at h
          cases h
          rfl
        · rw [mget_mset_ne _ _ _ _ h2] at h
          exact hInv.2.1 roomId room uid u hroom h hm

theorem voiceInv_handleMute (wsOpen : Nat → Bool) (s : VState)
    (roomId userId : String) (now : Nat) (hInv : VoiceInv s) :
    VoiceInv (VoiceChatManager.handleMute wsOpen s roomId userId now).1 := by
  cases hroom : mget s.rooms roomId with
  | none =>
    rw [show (VoiceChatManager.handleMute wsOpen s roomId userId now).1 = s by
      simp [VoiceChatManager.handleMute, hroom]]
    exact hInv
  | some room =>
    cases huser : mget room.users userId with
    | none =>
      rw [show (VoiceChatManager.handleMute wsOpen s roomId userId now).1 = s
        by simp [VoiceChatManager.handleMute, hroom, huser]]
      exact hInv
    | some user =>
      rw [show (VoiceChatManager.handleMute wsOpen s roomId userId now).1 =
          { s with
              rooms := mset s.rooms roomId
                { room with
                    users := mset room.users userId
                      { user with isMuted := true, isSpeaking := false } } } by
        simp [VoiceChatManager.handleMute, hroom, huser]]
      refine voiceInv_updateRoom s roomId room _ hroom ?_ ?_ hInv
      · intro uid h
        by_cases h2 : userId = uid
        · subst h2
          simp [huser]
        · rwa [mget_mset_ne _ _ _ _ h2] at h
      · intro uid u h hm
        by_cases h2 : userId = uid
        · subst h2
          rw [mget_mset_self] at h
          cases h
          rfl
        · rw [mget_mset_ne _ _ _ _ h2] at h
          exact hInv.2.1 roomId room uid u hroom h hm

theorem voiceInv_handleUnmute (wsOpen : Nat → Bool) (s : VState)
    (roomId userId : String) (now : Nat) (hInv : VoiceInv s) :
    VoiceInv (VoiceChatManager.handleUnmute wsOpen s roomId userId now).1 := by
  cases hroom : mget s.rooms roomId with
  | none =>
    rw [show (VoiceChatManager.handleUnmute wsOpen s roomId userId now).1 = s
      by simp [VoiceChatManager.handleUnmute, hroom]]
    exact hInv
  | some room =>
    cases huser : mget room.users userId with
    | none =>
      rw [show (VoiceChatManager.handleUnmute wsOpen s roomId userId now).1 =
        s by simp [VoiceChatManager.handleUnmute, hroom, huser]]
      exact hInv
    | some user =>
      rw [show (VoiceChatManager.handleUnmute wsOpen s roomId userId now).1 =
          { s with
              rooms := mset s.rooms roomId
                { room with
                    users := mset room.users userId
                      { user with isMuted := false } } } by
        simp [VoiceChatManager.handleUnmute, hroom, huser]]
      refine voiceInv_updateRoom s roomId room _ hroom ?_ ?_ hInv
      · intro uid h
        by_cases h2 : userId = uid
        · subst h2
          simp [huser]
        · rwa [mget_mset_ne _ _ _ _ h2] at h
      · intro uid u h hm
        by_cases h2 : userId = uid
        · subst h2
          rw [mget_mset_self] at h
          cases h
          simp at hm
        · rw [mget_mset_ne _ _ _ _ h2] at h
          exact hInv.2.1 roomId room uid u hroom h hm

theorem voiceInv_handleQualityChange (wsOpen : Nat → Bool) (s : VState)
    (roomId userId quality : String) (volume : Option Int) (now : Nat)
    (hInv : VoiceInv s) :
    VoiceInv (VoiceChatManager.handleQualityChange wsOpen s roomId userId
      quality volume now).1 := by
  cases hroom : mget s.rooms roomId with
  | none =>
    rw [show (VoiceChatManager.handleQualityChange wsOpen s roomId userId
        quality volume now).1 = s by
      simp [VoiceChatManager.handleQualityChange, hroom]]
    exact hInv
  | some room =>
    cases huser : mget room.users userId with
    | none =>
      rw [show (VoiceChatManager.handleQualityChange wsOpen s roomId userId
          quality volume now).1 = s by
        simp [VoiceChatManager.handleQualityChange, hroom, huser]]
      exact hInv
    | some user =>
      rw [show (VoiceChatManager.handleQualityChange wsOpen s roomId userId
          quality volume now).1 =
          { s with
              rooms := mset s.rooms roomId
                { room with
                    users := mset room.users userId
                      { user with
                          quality := quality,
                          volume := jsOrInt volume user.volume } } } by
        simp [VoiceChatManager.handleQualityChange, hroom, huser]]
      refine voiceInv_updateRoom s roomId room _ hroom ?_ ?_ hInv
      · intro uid h
        by_cases h2 : userId = uid
        · subst h2
          simp [huser]
        · rwa [mget_mset_ne _ _ _ _ h2] at h
      · intro uid u h hm
        by_cases h2 : userId = uid
        · subst h2
          rw [mget_mset_self] at h
          cases h
          simp only at hm ⊢
          exact hInv.2.1 roomId room userId user hroom huser hm
        · rw [mget_mset_ne _ _ _ _ h2] at h
          exact hInv.2.1 roomId room uid u hroom h hm

theorem voiceInv_handleNoiseReduction (wsOpen : Nat → Bool) (s : VState)
    (roomId userId : String) (enabled : Bool) (now : Nat) (hInv : VoiceInv s) :
    VoiceInv (VoiceChatManager.handleNoiseReduction wsOpen s roomId userId
      enabled now).1 := by
  cases hroom : mget s.rooms roomId with
  | none =>
    rw [show (VoiceChatManager.handleNoiseReduction wsOpen s roomId userId
        enabled now).1 = s by
      simp [VoiceChatManager.handleNoiseReduction, hroom]]
    exact hInv
  | some room =>
    cases huser : mget room.users userId with
    | none =>
      rw [show (VoiceChatManager.handleNoiseReduction wsOpen s roomId userId
          enabled now).1 = s by
        simp [VoiceChatManager.handleNoiseReduction, hroom, huser]]
      exact hInv
    | some user =>
      by_cases hadm : user.isAdmin
      · rw [show (VoiceChatManager.handleNoiseReduction wsOpen s roomId userId
            enabled now).1 =
            { s with
                rooms := mset s.rooms roomId
                  { room with
                      settings :=
                        { room.settings with noiseReduction := enabled } } } by
          simp [VoiceChatManager.handleNoiseReduction, hroom, huser, hadm]]
        refine voiceInv_updateRoom s roomId room _ hroom ?_ ?_ hInv
        · intro uid h
          exact h
        · intro uid u h hm
          exact hInv.2.1 roomId room uid u hroom h hm
      · rw [show (VoiceChatManager.handleNoiseReduction wsOpen s roomId userId
            enabled now).1 = s by
          simp [VoiceChatManager.handleNoiseReduction, hroom, huser, hadm]]
        exact hInv

theorem handleAudioData_state (wsOpen : Nat → Bool) (s : VState)
    (roomId userId audio : String) (now : Nat) :
    (VoiceChatManager.handleAudioData wsOpen s roomId userId audio now).1 = s := by
  cases hroom : mget s.rooms roomId with
  | none => simp [VoiceChatManager.handleAudioData, hroom]
  | some room =>
    cases huser : mget room.users userId with
    | none => simp [VoiceChatManager.handleAudioData, hroom, huser]
    | some user =>
      by_cases hmut : user.isMuted
      · simp [VoiceChatManager.handleAudioData, hroom, huser, hmut]
      · simp [VoiceChatManager.handleAudioData, hroom, huser, hmut]

theorem voiceId_ne_empty (seed : String) : ("voice_" ++ seed) ≠ "" := by
  intro h
  have h2 := congrArg String.length h
  rw [String.length_append] at h2
  have h3 : "voice_".length = 6 := rfl
  have h4 : ("" : String).length = 0 := rfl
  omega

theorem voiceInv_createRoom (s : VState)
    (config : VoiceChatManager.CreateRoomConfig) (now : Nat)
    (hne : config.id ≠ "") (hInv : VoiceInv s) :
    VoiceInv (VoiceChatManager.createRoom s config now).1 := by
  obtain ⟨hK, hM, hE⟩ := hInv
  refine ⟨?_, ?_, ?_⟩
  · intro rid room uid hroom huser
    simp only [VoiceChatManager.createRoom] at hroom ⊢
    by_cases h : config.id = rid
    · subst h
      rw [mget_mset_self] at hroom
      cases hroom
      simp [mget] at huser
    · rw [mget_mset_ne _ _ _ _ h] at hroom
      exact hK rid room uid hroom huser
  · intro rid room uid u hroom huser hmut
    simp only [VoiceChatManager.createRoom] at hroom
    by_cases h : config.id = rid
    · subst h
      rw [mget_mset_self] at hroom
      cases hroom
      simp [mget] at huser
    · rw [mget_mset_ne _ _ _ _ h] at hroom
      exact hM rid room uid u hroom huser hmut
  · show mget (mset s.rooms config.id _) "" = none
    rw [mget_mset_ne _ _ _ _ hne]
    exact hE

theorem voiceInv_handleRoomCreate (wsOpen : Nat → Bool) (s : VState) (ws : Nat)
    (seed : String) (roomData : VoiceChatManager.RoomCreateData)
    (userInfo : UserInfo) (now : Nat) (hInv : VoiceInv s) :
    VoiceInv (VoiceChatManager.handleRoomCreate wsOpen s ws seed roomData
      userInfo now).1 := by
  rw [show (VoiceChatManager.handleRoomCreate wsOpen s ws seed roomData
      userInfo now).1 =
      (VoiceChatManager.handleRoomJoin wsOpen
        (VoiceChatManager.createRoom s
          { id := "voice_" ++ seed,
            name := jsOrStr roomData.name ("غرفة " ++ userInfo.username),
            description := roomData.description, ownerId := userInfo.id,
            isPrivate := roomData.isPrivate, password := roomData.password,
            maxUsers := jsOrInt roomData.maxUsers 10,
            isTemporary := true } now).1
        ws ("voice_" ++ seed) userInfo none now).1 by
    simp [VoiceChatManager.handleRoomCreate]]
  exact voiceInv_handleRoomJoin _ _ _ _ _ _ _
    (voiceInv_createRoom s _ now (voiceId_ne_empty seed) hInv)

theorem voiceInv_handleUserDisconnect (wsOpen : Nat → Bool) (s : VState)
    (userId : String) (now : Nat) (hInv : VoiceInv s) :
    VoiceInv (VoiceChatManager.handleUserDisconnect wsOpen s userId now).1 := by
  cases hprev : mget s.userRooms userId with
  | none =>
    rw [show (VoiceChatManager.handleUserDisconnect wsOpen s userId now).1 = s
      by simp [VoiceChatManager.handleUserDisconnect, hprev]]
    exact hInv
  | some rid =>
    by_cases h : rid = ""
    · rw [show (VoiceChatManager.handleUserDisconnect wsOpen s userId now).1 =
        s by simp [VoiceChatManager.handleUserDisconnect, hprev, h]]
      exact hInv
    · rw [show (VoiceChatManager.handleUserDisconnect wsOpen s userId now).1 =
          (VoiceChatManager.removeUserFromRoom wsOpen s userId rid now).1 by
        simp [VoiceChatManager.handleUserDisconnect, hprev, h]]
      exact voiceInv_removeUserFromRoom wsOpen s userId rid now hInv

/-- Every operation of the voice manager preserves the invariants. -/
theorem voiceInv_step (wsOpen : Nat → Bool) (s : VState) (op : VoiceOp)
    (hInv : VoiceInv s) : VoiceInv (voiceStep wsOpen s op).1 := by
  cases op with
  | roomJoin ws roomId userInfo password now =>
    exact voiceInv_handleRoomJoin wsOpen s ws roomId userInfo password now hInv
  | roomLeave roomId userId now =>
    exact voiceInv_removeUserFromRoom wsOpen s userId roomId now hInv
  | startSpeaking roomId userId now =>
    exact voiceInv_handleStartSpeaking wsOpen s roomId userId now hInv
  | stopSpeaking roomId userId now =>
    exact voiceInv_handleStopSpeaking wsOpen s roomId userId now hInv
  | audioData roomId userId audio now =>
    rw [show (voiceStep wsOpen s (VoiceOp.audioData roomId userId audio
        now)).1 = s from handleAudioData_state wsOpen s roomId userId audio now]
    exact hInv
  | muteUser roomId userId now =>
    exact voiceInv_handleMute wsOpen s roomId userId now hInv
  | unmuteUser roomId userId now =>
    exact voiceInv_handleUnmute wsOpen s roomId userId now hInv
  | roomCreate ws seed roomData userInfo now =>
    exact voiceInv_handleRoomCreate wsOpen s ws seed roomData userInfo now hInv
  | qualityChange roomId userId quality volume now =>
    exact voiceInv_handleQualityChange wsOpen s roomId userId quality volume
      now hInv
  | echoTest ws roomId userId audio now => exact hInv
  | noiseReduction roomId userId enabled now =>
    exact voiceInv_handleNoiseReduction wsOpen s roomId userId enabled now hInv
  | disconnect userId now =>
    exact voiceInv_handleUserDisconnect wsOpen s userId now hInv

/-- The voice invariants hold at every reachable state. -/
theorem voiceInv_reachable (s : VState) (h : VReach s) : VoiceInv s := by
  induction h with
  | init => exact voiceInv_init
  | step s' op wsOpen _ ih => exact voiceInv_step wsOpen s' op ih

/-- Evicting a user from one room leaves every other room's entry
untouched. -/
theorem removeUser_other_rooms (wsOpen : Nat → Bool) (s : VState)
    (uid p : String) (now : Nat) (rid' : String) (hne : p ≠ rid') :
    mget (VoiceChatManager.removeUserFromRoom wsOpen s uid p now).1.rooms
      rid' = mget s.rooms rid' := by
  cases hroomP : mget s.rooms p with
  | none => simp [VoiceChatManager.removeUserFromRoom, hroomP]
  | some roomP =>
    cases huserP : mget roomP.users uid with
    | none => simp [VoiceChatManager.removeUserFromRoom, hroomP, huserP]
    | some userP =>
      rw [show (VoiceChatManager.removeUserFromRoom wsOpen s uid p now).1 =
          { rooms :=
              if (roomP.isTemporary && (mdel roomP.users uid).isEmpty) = true
              then mdel (mset s.rooms p
                { roomP with users := mdel roomP.users uid }) p
              else mset s.rooms p
                { roomP with users := mdel roomP.users uid },
            userRooms := mdel s.userRooms uid } by
        simp [VoiceChatManager.removeUserFromRoom, hroomP, huserP]]
      simp only
      by_cases hdel : (roomP.isTemporary && (mdel roomP.users uid).isEmpty) =
          true
      · rw [if_pos hdel, mget_mdel_ne _ _ _ hne, mget_mset_ne _ _ _ _ hne]
      · rw [if_neg hdel, mget_mset_ne _ _ _ _ hne]

/-! ## Claim C1 (corrected): at most one room membership per identity -/

/-- Counterexample to C1 as stated (it claims eviction for both domains):
after alice creates game room `room_A`, bob creates game room `room_B`, and
alice joins `room_B`, the reachable game state records alice (`"p1"`) in the
member sets of BOTH game rooms — a game-room join does not evict the prior
game-room membership. -/
theorem claim_C1_counterexample :
    GReach gsAB2 ∧
    (mget gsAB2.rooms "room_A").map (fun r => (mget r.players "p1").isSome) =
      some true ∧
    (mget gsAB2.rooms "room_B").map (fun r => (mget r.players "p1").isSome) =
      some true ∧
    "room_A" ≠ "room_B" := by
  refine ⟨?_, by rfl, by rfl, by decide⟩
  exact GReach.step _ _ _ (GReach.step _ _ _ (GReach.step _ _ _ GReach.init))

/-- C1 (amended): the single-membership-per-identity invariant holds in the
voice domain: at every reachable voice state no identity is recorded in two
rooms' member sets (and the `userRooms` index, being a map, records at most
one room per identity by construction); moreover a voice join for room B
while the identity is a member of room A ≠ B removes the membership in A as
part of the same join and installs the membership in B.  In the game domain
the corresponding statement is false (see the counterexample): a game join
evicts nothing. -/
theorem claim_C1 (s : VState) (hreach : VReach s) :
    (∀ rid1 rid2 r1 r2 uid, mget s.rooms rid1 = some r1 →
      mget s.rooms rid2 = some r2 → (mget r1.users uid).isSome →
      (mget r2.users uid).isSome → rid1 = rid2) ∧
    (∀ (wsOpen : Nat → Bool) (ws : Nat) (ridA ridB : String)
        (rA rB : VoiceRoom) (userInfo : UserInfo) (password : Option String)
        (now : Nat),
      mget s.rooms ridA = some rA → (mget rA.users userInfo.id).isSome →
      ridA ≠ ridB → mget s.rooms ridB = some rB →
      ¬(rB.users.length : Int) ≥ rB.settings.maxUsers →
      ¬(rB.settings.isPrivate = true ∧ ¬rB.settings.password = password) →
      (∀ rA', mget (voiceStep wsOpen s (VoiceOp.roomJoin ws ridB userInfo
          password now)).1.rooms ridA = some rA' →
        mget rA'.users userInfo.id = none) ∧
      (∃ rB', mget (voiceStep wsOpen s (VoiceOp.roomJoin ws ridB userInfo
          password now)).1.rooms ridB = some rB' ∧
        (mget rB'.users userInfo.id).isSome)) := by
  obtain ⟨hK, hM, hE⟩ := voiceInv_reachable s hreach
  constructor
  · intro rid1 rid2 r1 r2 uid h1 h2 m1 m2
    have i1 := hK rid1 r1 uid h1 m1
    have i2 := hK rid2 r2 uid h2 m2
    rw [i1] at i2
    exact Option.some.inj i2
  · intro wsOpen ws ridA ridB rA rB userInfo password now hrA hmem hne hrB
      hfull hpw
    have hprev : mget s.userRooms userInfo.id = some ridA :=
      hK ridA rA userInfo.id hrA hmem
    have hpe : ¬ridA = "" := by
      intro h
      subst h
      have hE' : mget s.rooms "" = none := hE
      rw [hE'] at hrA
      simp at hrA
    have hx : mget (VoiceChatManager.removeUserFromRoom wsOpen s userInfo.id
        ridA now).1.rooms ridB = some rB := by
      rw [removeUser_other_rooms wsOpen s userInfo.id ridA now ridB hne]
      exact hrB
    have hred : (voiceStep wsOpen s (VoiceOp.roomJoin ws ridB userInfo
        password now)).1 =
        ({ rooms := mset (VoiceChatManager.removeUserFromRoom wsOpen s
              userInfo.id ridA now).1.rooms ridB
            { rB with
                users := mset rB.users userInfo.id
                  (VoiceChatManager.freshVoiceUser userInfo ws now) },
           userRooms := mset (VoiceChatManager.removeUserFromRoom wsOpen s
              userInfo.id ridA now).1.userRooms userInfo.id ridB } : VState) := by
      simp [voiceStep, VoiceChatManager.handleRoomJoin, hrB, hfull, hpw,
        hprev, hpe, hx]
    constructor
    · intro rA' hgetA
      rw [hred] at hgetA
      simp only at hgetA
      rw [mget_mset_ne _ _ _ _ (fun he => hne he.symm)] at hgetA
      exact removeUser_notMember wsOpen s userInfo.id ridA now hK hprev ridA
        rA' hgetA
    · refine ⟨{ rB with
          users := mset rB.users userInfo.id
            (VoiceChatManager.freshVoiceUser userInfo ws now) }, ?_, ?_⟩
      · rw [hred]
        simp only
        rw [mget_mset_self]
      · simp only
        rw [mget_mset_self]
        simp

/-- Witness for the amended C1: alice is in `general`; her join into `gaming`
removes her from `general` and records her in `gaming`. -/
theorem claim_C1_witness :
    (∀ rA', mget (voiceStep allOpen vsGeneral2 (VoiceOp.roomJoin 1 "gaming"
        aliceInfo none 6)).1.rooms "general" = some rA' →
      mget rA'.users aliceInfo.id = none) ∧
    (∃ rB', mget (voiceStep allOpen vsGeneral2 (VoiceOp.roomJoin 1 "gaming"
        aliceInfo none 6)).1.rooms "gaming" = some rB' ∧
      (mget rB'.users aliceInfo.id).isSome) :=
  (claim_C1 vsGeneral2
      (VReach.step _ _ _ (VReach.step _ _ _ VReach.init))).2
    allOpen 1 "general" "gaming"
    ((mget vsGeneral2.rooms "general").get (by rfl))
    ((mget vsGeneral2.rooms "gaming").get (by rfl))
    aliceInfo none 6
    (Option.some_get _).symm (by rfl) (by decide)
    (Option.some_get _).symm (by decide) (by decide)

/-! ## Claim C8: muting -/

theorem mem_sendToUser (wsOpen : Nat → Bool) (ws : Nat) (msg : VoiceMsg)
    {x : Nat × VoiceMsg}
    (hx : x ∈ VoiceChatManager.sendToUser wsOpen ws msg) : x.2 = msg := by
  unfold VoiceChatManager.sendToUser at hx
  by_cases h : wsOpen ws
  · rw [if_pos h] at hx
    rw [List.mem_singleton.mp hx]
  · rw [if_neg h] at hx
    simp at hx

theorem mem_sendError (wsOpen : Nat → Bool) (ws : Nat) (e : String) (now : Nat)
    {x : Nat × VoiceMsg}
    (hx : x ∈ VoiceChatManager.sendError wsOpen ws e now) :
    x.2 = { type := "voice_room_join", roomId := "", userId := "",
            data := VoiceData.err e, timestamp := now } :=
  mem_sendToUser wsOpen ws _ hx

theorem mem_broadcastToVoiceRoom (wsOpen : Nat → Bool)
    (rooms : List (String × VoiceRoom)) (roomId : String) (msg : VoiceMsg)
    (ex : Option String) {x : Nat × VoiceMsg}
    (hx : x ∈ VoiceChatManager.broadcastToVoiceRoom wsOpen rooms roomId msg
      ex) : x.2 = msg := by
  cases h : mget rooms roomId with
  | none => simp [VoiceChatManager.broadcastToVoiceRoom, h] at hx
  | some room =>
    simp [VoiceChatManager.broadcastToVoiceRoom, h] at hx
    rcases hx with ⟨kv, w, h1, hkv⟩
    rw [← hkv]

theorem removeUserFromRoom_no_speak (wsOpen : Nat → Bool) (s : VState)
    (uid rid : String) (now : Nat) :
    ∀ x ∈ (VoiceChatManager.removeUserFromRoom wsOpen s uid rid now).2,
      x.2.type ≠ "voice_start_speaking" := by
  intro x hx
  cases hroom : mget s.rooms rid with
  | none => simp [VoiceChatManager.removeUserFromRoom, hroom] at hx
  | some room =>
    cases huser : mget room.users uid with
    | none => simp [VoiceChatManager.removeUserFromRoom, hroom, huser] at hx
    | some user =>
      rw [show (VoiceChatManager.removeUserFromRoom wsOpen s uid rid now).2 =
          VoiceChatManager.broadcastToVoiceRoom wsOpen
            (mset s.rooms rid { room with users := mdel room.users uid }) rid
            { type := "voice_user_status", roomId := rid, userId := uid,
              data := VoiceData.userLeft "left"
                ("غادر " ++ user.username ++ " المحادثة الصوتية"),
              timestamp := now } none by
        simp [VoiceChatManager.removeUserFromRoom, hroom, huser]] at hx
      rw [mem_broadcastToVoiceRoom _ _ _ _ _ hx]
      show "voice_user_status" ≠ "voice_start_speaking"
      decide

theorem handleRoomJoin_no_speak (wsOpen : Nat → Bool) (s : VState) (ws : Nat)
    (roomId : String) (userInfo : UserInfo) (password : Option String)
    (now : Nat) :
    ∀ x ∈ (VoiceChatManager.handleRoomJoin wsOpen s ws roomId userInfo
      password now).2, x.2.type ≠ "voice_start_speaking" := by
  intro x hx
  cases hroom : mget s.rooms roomId with
  | none =>
    rw [show (VoiceChatManager.handleRoomJoin wsOpen s ws roomId userInfo
        password now).2 =
        VoiceChatManager.sendError wsOpen ws "الغرفة الصوتية غير موجودة" now by
      simp [VoiceChatManager.handleRoomJoin, hroom]] at hx
    rw [mem_sendError _ _ _ _ hx]
    show "voice_room_join" ≠ "voice_start_speaking"
    decide
  | some room =>
    by_cases hfull : (room.users.length : Int) ≥ room.settings.maxUsers
    · rw [show (VoiceChatManager.handleRoomJoin wsOpen s ws roomId userInfo
          password now).2 =
          VoiceChatManager.sendError wsOpen ws "الغرفة الصوتية ممتلئة" now by
        simp [VoiceChatManager.handleRoomJoin, hroom, hfull]] at hx
      rw [mem_sendError _ _ _ _ hx]
      show "voice_room_join" ≠ "voice_start_speaking"
      decide
    · by_cases hpw : room.settings.isPrivate = true ∧
          ¬room.settings.password = password
      · rw [show (VoiceChatManager.handleRoomJoin wsOpen s ws roomId userInfo
            password now).2 =
            VoiceChatManager.sendError wsOpen ws
              "كلمة مرور الغرفة الصوتية خاطئة" now by
          simp [VoiceChatManager.handleRoomJoin, hroom, hfull, hpw]] at hx
        rw [mem_sendError _ _ _ _ hx]
        show "voice_room_join" ≠ "voice_start_speaking"
        decide
      · cases hprev : mget s.userRooms userInfo.id with
        | none =>
          simp [VoiceChatManager.handleRoomJoin, hroom, hfull, hpw, hprev]
            at hx
          rcases hx with hx | hx
          · rw [mem_sendToUser _ _ _ hx]
            show "voice_room_join" ≠ "voice_start_speaking"
            decide
          · rw [mem_broadcastToVoiceRoom _ _ _ _ _ hx]
            show "voice_user_status" ≠ "voice_start_speaking"
            decide
        | some p =>
          by_cases hpe : p = ""
          · simp [VoiceChatManager.handleRoomJoin, hroom, hfull, hpw, hprev,
              hpe] at hx
            rcases hx with hx | hx
            · rw [mem_sendToUser _ _ _ hx]
              show "voice_room_join" ≠ "voice_start_speaking"
              decide
            · rw [mem_broadcastToVoiceRoom _ _ _ _ _ hx]
              show "voice_user_status" ≠ "voice_start_speaking"
              decide
          · simp [VoiceChatManager.handleRoomJoin, hroom, hfull, hpw, hprev,
              hpe] at hx
            rcases hx with hx | hx | hx
            · exact removeUserFromRoom_no_speak wsOpen s userInfo.id p now x
                hx
            · rw [mem_sendToUser _ _ _ hx]
              show "voice_room_join" ≠ "voice_start_speaking"
              decide
            · rw [mem_broadcastToVoiceRoom _ _ _ _ _ hx]
              show "voice_user_status" ≠ "voice_start_speaking"
              decide

theorem handleRoomCreate_no_speak (wsOpen : Nat → Bool) (s : VState)
    (ws : Nat) (seed : String) (roomData : VoiceChatManager.RoomCreateData)
    (userInfo : UserInfo) (now : Nat) :
    ∀ x ∈ (VoiceChatManager.handleRoomCreate wsOpen s ws seed roomData
      userInfo now).2, x.2.type ≠ "voice_start_speaking" := by
  intro x hx
  simp [VoiceChatManager.handleRoomCreate] at hx
  rcases hx with hx | hx
  · exact handleRoomJoin_no_speak wsOpen _ ws _ userInfo none now x hx
  · rw [mem_sendToUser _ _ _ hx]
    show "voice_room_create" ≠ "voice_start_speaking"
    decide

theorem handleStopSpeaking_no_speak (wsOpen : Nat → Bool) (s : VState)
    (roomId userId : String) (now : Nat) :
    ∀ x ∈ (VoiceChatManager.handleStopSpeaking wsOpen s roomId userId now).2,
      x.2.type ≠ "voice_start_speaking" := by
  intro x hx
  cases hroom : mget s.rooms roomId with
  | none => simp [VoiceChatManager.handleStopSpeaking, hroom] at hx
  | some room =>
    cases huser : mget room.users userId with
    | none => simp [VoiceChatManager.handleStopSpeaking, hroom, huser] at hx
    | some user =>
      simp only [VoiceChatManager.handleStopSpeaking, hroom, huser] at hx
      rw [mem_broadcastToVoiceRoom _ _ _ _ _ hx]
      show "voice_stop_speaking" ≠ "voice_start_speaking"
      decide

theorem handleMute_no_speak (wsOpen : Nat → Bool) (s : VState)
    (roomId userId : String) (now : Nat) :
    ∀ x ∈ (VoiceChatManager.handleMute wsOpen s roomId userId now).2,
      x.2.type ≠ "voice_start_speaking" := by
  intro x hx
  cases hroom : mget s.rooms roomId with
  | none => simp [VoiceChatManager.handleMute, hroom] at hx
  | some room =>
    cases huser : mget room.users userId with
    | none => simp [VoiceChatManager.handleMute, hroom, huser] at hx
    | some user =>
      simp only [VoiceChatManager.handleMute, hroom, huser] at hx
      rw [mem_broadcastToVoiceRoom _ _ _ _ _ hx]
      show "voice_mute" ≠ "voice_start_speaking"
      decide

theorem handleUnmute_no_speak (wsOpen : Nat → Bool) (s : VState)
    (roomId userId : String) (now : Nat) :
    ∀ x ∈ (VoiceChatManager.handleUnmute wsOpen s roomId userId now).2,
      x.2.type ≠ "voice_start_speaking" := by
  intro x hx
  cases hroom : mget s.rooms roomId with
  | none => simp [VoiceChatManager.handleUnmute, hroom] at hx
  | some room =>
    cases huser : mget room.users userId with
    | none => simp [VoiceChatManager.handleUnmute, hroom, huser] at hx
    | some user =>
      simp only [VoiceChatManager.handleUnmute, hroom, huser] at hx
      rw [mem_broadcastToVoiceRoom _ _ _ _ _ hx]
      show "voice_unmute" ≠ "voice_start_speaking"
      decide

theorem handleAudioData_no_speak (wsOpen : Nat → Bool) (s : VState)
    (roomId userId audio : String) (now : Nat) :
    ∀ x ∈ (VoiceChatManager.handleAudioData wsOpen s roomId userId audio
      now).2, x.2.type ≠ "voice_start_speaking" := by
  intro x hx
  cases hroom : mget s.rooms roomId with
  | none => simp [VoiceChatManager.handleAudioData, hroom] at hx
  | some room =>
    cases huser : mget room.users userId with
    | none => simp [VoiceChatManager.handleAudioData, hroom, huser] at hx
    | some sender =>
      by_cases hmut : sender.isMuted
      · simp [VoiceChatManager.handleAudioData, hroom, huser, hmut] at hx
      · simp [VoiceChatManager.handleAudioData, hroom, huser, hmut] at hx
        rcases hx with ⟨kv, w, h1, hkv⟩
        rw [← hkv]
        show "voice_audio_data" ≠ "voice_start_speaking"
        decide

theorem handleQualityChange_no_speak (wsOpen : Nat → Bool) (s : VState)
    (roomId userId quality : String) (volume : Option Int) (now : Nat) :
    ∀ x ∈ (VoiceChatManager.handleQualityChange wsOpen s roomId userId quality
      volume now).2, x.2.type ≠ "voice_start_speaking" := by
  intro x hx
  cases hroom : mget s.rooms roomId with
  | none => simp [VoiceChatManager.handleQualityChange, hroom] at hx
  | some room =>
    cases huser : mget room.users userId with
    | none => simp [VoiceChatManager.handleQualityChange, hroom, huser] at hx
    | some user =>
      simp only [VoiceChatManager.handleQualityChange, hroom, huser] at hx
      rw [mem_sendToUser _ _ _ hx]
      show "voice_quality_change" ≠ "voice_start_speaking"
      decide

theorem handleEchoTest_no_speak (wsOpen : Nat → Bool) (s : VState) (ws : Nat)
    (roomId userId audio : String) (now : Nat) :
    ∀ x ∈ (VoiceChatManager.handleEchoTest wsOpen s ws roomId userId audio
      now).2, x.2.type ≠ "voice_start_speaking" := by
  intro x hx
  simp only [VoiceChatManager.handleEchoTest] at hx
  rw [mem_sendToUser _ _ _ hx]
  show "voice_echo_test" ≠ "voice_start_speaking"
  decide

theorem handleNoiseReduction_no_speak (wsOpen : Nat → Bool) (s : VState)
    (roomId userId : String) (enabled : Bool) (now : Nat) :
    ∀ x ∈ (VoiceChatManager.handleNoiseReduction wsOpen s roomId userId
      enabled now).2, x.2.type ≠ "voice_start_speaking" := by
  intro x hx
  cases hroom : mget s.rooms roomId with
  | none => simp [VoiceChatManager.handleNoiseReduction, hroom] at hx
  | some room =>
    cases huser : mget room.users userId with
    | none => simp [VoiceChatManager.handleNoiseReduction, hroom, huser] at hx
    | some user =>
      by_cases hadm : user.isAdmin
      · simp only [VoiceChatManager.handleNoiseReduction, hroom, huser,
          hadm] at hx
        rw [mem_broadcastToVoiceRoom _ _ _ _ _ hx]
        show "voice_room_settings" ≠ "voice_start_speaking"
        decide
      · simp [VoiceChatManager.handleNoiseReduction, hroom, huser, hadm] at hx

theorem handleUserDisconnect_no_speak (wsOpen : Nat → Bool) (s : VState)
    (userId : String) (now : Nat) :
    ∀ x ∈ (VoiceChatManager.handleUserDisconnect wsOpen s userId now).2,
      x.2.type ≠ "voice_start_speaking" := by
  intro x hx
  cases hprev : mget s.userRooms userId with
  | none => simp [VoiceChatManager.handleUserDisconnect, hprev] at hx
  | some rid =>
    by_cases h : rid = ""
    · simp [VoiceChatManager.handleUserDisconnect, hprev, h] at hx
    · simp only [VoiceChatManager.handleUserDisconnect, hprev] at hx
      rw [if_neg h] at hx
      exact removeUserFromRoom_no_speak wsOpen s userId rid now x hx

theorem mutedEverywhere_of_B (s : VState) (userId : String)
    (h : mutedEverywhereB s userId = true) : MutedEverywhere s userId := by
  intro rid room u hroom huser
  have hmem := mem_of_mget hroom
  have h2 := (List.all_eq_true.mp h) (rid, room) hmem
  simp only at h2
  rw [huser] at h2
  exact h2

/-- While every record of a user is muted, no step of the voice manager
broadcasts a `voice_start_speaking` event for that user. -/
theorem no_speak_of_muted (s : VState) (userId : String)
    (hmut : MutedEverywhere s userId) (wsOpen : Nat → Bool) (op : VoiceOp) :
    ∀ x ∈ (voiceStep wsOpen s op).2,
      ¬(x.2.type = "voice_start_speaking" ∧ x.2.userId = userId) := by
  cases op with
  | roomJoin ws roomId userInfo password now =>
    intro x hx hc
    exact handleRoomJoin_no_speak wsOpen s ws roomId userInfo password now x
      hx hc.1
  | roomLeave roomId userId' now =>
    intro x hx hc
    exact removeUserFromRoom_no_speak wsOpen s userId' roomId now x hx hc.1
  | startSpeaking roomId userId' now =>
    intro x hx hc
    cases hroom : mget s.rooms roomId with
    | none => simp [voiceStep, VoiceChatManager.handleStartSpeaking, hroom]
        at hx
    | some room =>
      cases huser : mget room.users userId' with
      | none => simp [voiceStep, VoiceChatManager.handleStartSpeaking, hroom,
          huser] at hx
      | some user =>
        by_cases hm : user.isMuted
        · simp [voiceStep, VoiceChatManager.handleStartSpeaking, hroom, huser,
            hm] at hx
        · simp only [voiceStep, VoiceChatManager.handleStartSpeaking, hroom,
            huser] at hx
          rw [if_neg (by simpa using hm)] at hx
          have hx2 := mem_broadcastToVoiceRoom _ _ _ _ _ hx
          have hid : userId' = userId := by
            have := hc.2
            rw [hx2] at this
            exact this
          subst hid
          exact hm (hmut roomId room user hroom huser)
  | stopSpeaking roomId userId' now =>
    intro x hx hc
    exact handleStopSpeaking_no_speak wsOpen s roomId userId' now x hx hc.1
  | audioData roomId userId' audio now =>
    intro x hx hc
    exact handleAudioData_no_speak wsOpen s roomId userId' audio now x hx hc.1
  | muteUser roomId userId' now =>
    intro x hx hc
    exact handleMute_no_speak wsOpen s roomId userId' now x hx hc.1
  | unmuteUser roomId userId' now =>
    intro x hx hc
    exact handleUnmute_no_speak wsOpen s roomId userId' now x hx hc.1
  | roomCreate ws seed roomData userInfo now =>
    intro x hx hc
    exact handleRoomCreate_no_speak wsOpen s ws seed roomData userInfo now x
      hx hc.1
  | qualityChange roomId userId' quality volume now =>
    intro x hx hc
    exact handleQualityChange_no_speak wsOpen s roomId userId' quality volume
      now x hx hc.1
  | echoTest ws roomId userId' audio now =>
    intro x hx hc
    exact handleEchoTest_no_speak wsOpen s ws roomId userId' audio now x hx
      hc.1
  | noiseReduction roomId userId' enabled now =>
    intro x hx hc
    exact handleNoiseReduction_no_speak wsOpen s roomId userId' enabled now x
      hx hc.1
  | disconnect userId' now =>
    intro x hx hc
    exact handleUserDisconnect_no_speak wsOpen s userId' now x hx hc.1

/-- C8: a `voice_mute` message (1) sets the member's `isMuted` flag and
force-clears `isSpeaking` in the same step, and broadcasts the `voice_mute`
event to every member of the room with an open socket, the affected user
included (no exclusion); (2) while every record of the user is muted, no step
of the manager ever broadcasts a `voice_start_speaking` event for that user;
(3) at every reachable state a muted user's `isSpeaking` flag is false; and
(4) a `voice_unmute` clears the mute flag. -/
theorem claim_C8 :
    (∀ (wsOpen : Nat → Bool) (s : VState) (roomId userId : String)
        (now : Nat) (room : VoiceRoom) (user : VoiceUser),
      mget s.rooms roomId = some room → mget room.users userId = some user →
      (voiceStep wsOpen s (VoiceOp.muteUser roomId userId now)).1 =
        { s with
            rooms := mset s.rooms roomId
              { room with
                  users := mset room.users userId
                    { user with isMuted := true, isSpeaking := false } } } ∧
      (voiceStep wsOpen s (VoiceOp.muteUser roomId userId now)).2 =
        ((mset room.users userId
            { user with isMuted := true, isSpeaking := false }).filter
          (fun kv => wsOpen kv.2.ws)).map
          (fun kv => (kv.2.ws,
            ({ type := "voice_mute", roomId := roomId, userId := userId,
               data := VoiceData.muteFlag user.username true,
               timestamp := now } : VoiceMsg))) ∧
      (wsOpen user.ws = true →
        (user.ws,
          ({ type := "voice_mute", roomId := roomId, userId := userId,
             data := VoiceData.muteFlag user.username true,
             timestamp := now } : VoiceMsg)) ∈
          (voiceStep wsOpen s (VoiceOp.muteUser roomId userId now)).2)) ∧
    (∀ (s : VState) (userId : String), mutedEverywhereB s userId = true →
      ∀ (wsOpen : Nat → Bool) (op : VoiceOp),
        ∀ x ∈ (voiceStep wsOpen s op).2,
          ¬(x.2.type = "voice_start_speaking" ∧ x.2.userId = userId)) ∧
    (∀ s : VState, VReach s → MutedNotSpeaking s) ∧
    (∀ (wsOpen : Nat → Bool) (s : VState) (roomId userId : String)
        (now : Nat) (room : VoiceRoom) (user : VoiceUser),
      mget s.rooms roomId = some room → mget room.users userId = some user →
      mget (voiceStep wsOpen s
          (VoiceOp.unmuteUser roomId userId now)).1.rooms roomId =
        some { room with
                 users := mset room.users userId
                   { user with isMuted := false } }) := by
  refine ⟨?_, ?_, ?_, ?_⟩
  · intro wsOpen s roomId userId now room user hroom huser
    have hout : (voiceStep wsOpen s (VoiceOp.muteUser roomId userId now)).2 =
        ((mset room.users userId
            { user with isMuted := true, isSpeaking := false }).filter
          (fun kv => wsOpen kv.2.ws)).map
          (fun kv => (kv.2.ws,
            ({ type := "voice_mute", roomId := roomId, userId := userId,
               data := VoiceData.muteFlag user.username true,
               timestamp := now } : VoiceMsg))) := by
      simp [voiceStep, VoiceChatManager.handleMute, hroom, huser,
        VoiceChatManager.broadcastToVoiceRoom, mget_mset_self]
    refine ⟨?_, hout, ?_⟩
    · simp [voiceStep, VoiceChatManager.handleMute, hroom, huser]
    · intro hopen
      rw [hout]
      refine List.mem_map.mpr ⟨(userId,
        { user with isMuted := true, isSpeaking := false }),
        List.mem_filter.mpr ⟨mset_mem_self _ _ _, ?_⟩, rfl⟩
      simpa using hopen
  · intro s userId hB wsOpen op
    exact no_speak_of_muted s userId (mutedEverywhere_of_B s userId hB)
      wsOpen op
  · intro s h
    exact (voiceInv_reachable s h).2.1
  · intro wsOpen s roomId userId now room user hroom huser
    simp [voiceStep, VoiceChatManager.handleUnmute, hroom, huser,
      mget_mset_self]

/-- Witness for C8: alice and bob are in `general`; alice's mute broadcast is
delivered to alice's own connection 1 as well; in the muted state no
`voice_start_speaking` is emitted for alice, her speaking flag is down, and
an unmute clears the flag. -/
theorem claim_C8_witness :
    ((1 : Nat),
      ({ type := "voice_mute", roomId := "general", userId := "p1",
         data := VoiceData.muteFlag "alice" true,
         timestamp := 3 } : VoiceMsg)) ∈
      (voiceStep allOpen vsGeneral2 (VoiceOp.muteUser "general" "p1" 3)).2 ∧
    (∀ x ∈ (voiceStep allOpen vsMuted
        (VoiceOp.startSpeaking "general" "p1" 4)).2,
      ¬(x.2.type = "voice_start_speaking" ∧ x.2.userId = "p1")) ∧
    MutedNotSpeaking vsMuted ∧
    mget (voiceStep allOpen vsMuted
        (VoiceOp.unmuteUser "general" "p1" 5)).1.rooms "general" =
      some { (mget vsMuted.rooms "general").get (by rfl) with
               users := mset ((mget vsMuted.rooms "general").get
                   (by rfl)).users "p1"
                 { (mget ((mget vsMuted.rooms "general").get
                       (by rfl)).users "p1").get (by rfl) with
                     isMuted := false } } := by
  refine ⟨?_, ?_, ?_, ?_⟩
  · exact (claim_C8.1 allOpen vsGeneral2 "general" "p1" 3
      ((mget vsGeneral2.rooms "general").get (by rfl))
      ((mget ((mget vsGeneral2.rooms "general").get (by rfl)).users "p1").get
        (by rfl))
      (Option.some_get _).symm (Option.some_get _).symm).2.2 rfl
  · exact claim_C8.2.1 vsMuted "p1" (by rfl) allOpen
      (VoiceOp.startSpeaking "general" "p1" 4)
  · exact claim_C8.2.2.1 vsMuted
      (VReach.step _ _ _ (VReach.step _ _ _ (VReach.step _ _ _ VReach.init)))
  · exact claim_C8.2.2.2 allOpen vsMuted "general" "p1" 5
      ((mget vsMuted.rooms "general").get (by rfl))
      ((mget ((mget vsMuted.rooms "general").get (by rfl)).users "p1").get
        (by rfl))
      (Option.some_get _).symm (Option.some_get _).symm

/-! ## Game-manager host invariant (for claim C2) -/

/-- `mdel` removes every entry stored under its key. -/
theorem mem_mdel_ne {α : Type} {m : List (String × α)} {k : String}
    {x : String × α} (hx : x ∈ mdel m k) : x.1 ≠ k := by
  induction m with
  | nil => simp [mdel] at hx
  | cons kv rest ih =>
    by_cases h : kv.1 = k
    · rw [mdel, if_pos h] at hx
      exact ih hx
    · rw [mdel, if_neg h] at hx
      rcases List.mem_cons.mp hx with hx | hx
      · rw [hx]
        exact h
      · exact ih hx

/-- `HostInv` survives an `mset` of one member whose record is coherent. -/
theorem hostInv_players_mset (room : GameRoom) (playerId : String)
    (p : GamePlayer) (hinv : HostInv room) (hid : p.id = playerId)
    (hflag : p.isHost = true → playerId = room.hostId) :
    HostInv { room with players := mset room.players playerId p } := by
  refine ⟨nodup_mkeys_mset room.players playerId p hinv.1, ?_⟩
  intro kv hkv
  rcases mem_mset hkv with h | h
  · rw [h]
    exact ⟨hid, fun hf => hflag hf⟩
  · exact ⟨(hinv.2 kv h).1, fun hf => (hinv.2 kv h).2 hf⟩

/-- `HostInv` survives a member-wise update that keeps each member's key,
`id` and host flag. -/
theorem hostInv_players_map (room : GameRoom)
    (f : String × GamePlayer → String × GamePlayer)
    (hf : ∀ kv, (f kv).1 = kv.1 ∧ (f kv).2.id = kv.2.id ∧
      (f kv).2.isHost = kv.2.isHost)
    (h : HostInv room) :
    HostInv { room with players := room.players.map f } := by
  have hk : ∀ l : List (String × GamePlayer), mkeys (l.map f) = mkeys l := by
    intro l
    induction l with
    | nil => rfl
    | cons kv rest ih =>
      simp only [mkeys, List.map_cons] at ih ⊢
      rw [(hf kv).1, ih]
  refine ⟨?_, ?_⟩
  · show (mkeys (room.players.map f)).Nodup
    rw [hk]
    exact h.1
  · intro kv hkv
    rcases List.mem_map.mp hkv with ⟨a, ha, hfa⟩
    rw [← hfa]
    refine ⟨?_, ?_⟩
    · rw [(hf a).2.1, (hf a).1]
      exact (h.2 a ha).1
    · intro hfl
      rw [(hf a).2.2] at hfl
      rw [(hf a).1]
      exact (h.2 a ha).2 hfl

/-- With unique member keys and every flagged member keyed by `hostId`, at
most one member can hold the host flag. -/
theorem filter_host_length_le_one (players : List (String × GamePlayer))
    (hostId : String) (hnd : (mkeys players).Nodup)
    (hflag : ∀ kv ∈ players, kv.2.isHost = true → kv.1 = hostId) :
    (players.filter (fun kv => kv.2.isHost)).length ≤ 1 := by
  induction players with
  | nil => simp
  | cons kv rest ih =>
    have hnd' : (kv.1 :: mkeys rest).Nodup := hnd
    have h1 : kv.1 ∉ mkeys rest := (List.nodup_cons.mp hnd').1
    have h2 : (mkeys rest).Nodup := (List.nodup_cons.mp hnd').2
    by_cases hh : kv.2.isHost = true
    · have hrest : rest.filter (fun kv => kv.2.isHost) = [] := by
        rw [List.filter_eq_nil_iff]
        intro x hx hxh
        have hx1 : x.1 = hostId :=
          hflag x (List.mem_cons_of_mem _ hx) hxh
        have hk1 : kv.1 = hostId := hflag kv (List.mem_cons_self kv rest) hh
        apply h1
        rw [hk1, ← hx1]
        exact List.mem_map.mpr ⟨x, hx, rfl⟩
      simp [List.filter_cons, hh, hrest]
    · have hfalse : kv.2.isHost = false := by
        cases hb : kv.2.isHost
        · rfl
        · exact absurd hb hh
      simp only [List.filter_cons, hfalse, Bool.false_eq_true, if_false]
      exact ih h2 (fun x hx hxh => hflag x (List.mem_cons_of_mem _ hx) hxh)

/-- Every stored room keeps `HostInv` under a single-room update. -/
theorem hostInv_all_mset (rooms : List (String × GameRoom)) (roomId : String)
    (room1 : GameRoom)
    (hinv : ∀ rid r, mget rooms rid = some r → HostInv r)
    (h1 : HostInv room1) :
    ∀ rid r, mget (mset rooms roomId room1) rid = some r → HostInv r := by
  intro rid r hr
  by_cases he : rid = roomId
  · subst he
    rw [mget_mset_self] at hr
    injection hr with hr
    rw [← hr]
    exact h1
  · rw [mget_mset_ne rooms roomId rid room1 (fun hh => he hh.symm)] at hr
    exact hinv rid r hr

/-- Every stored room keeps `HostInv` under a room deletion. -/
theorem hostInv_all_mdel (rooms : List (String × GameRoom)) (roomId : String)
    (hinv : ∀ rid r, mget rooms rid = some r → HostInv r) :
    ∀ rid r, mget (mdel rooms roomId) rid = some r → HostInv r := by
  intro rid r hr
  by_cases he : rid = roomId
  · subst he
    rw [mget_mdel_self] at hr
    exact absurd hr (by simp)
  · rw [mget_mdel_ne rooms roomId rid (fun hh => he hh.symm)] at hr
    exact hinv rid r hr

theorem gameInv_createGameRoom (wsOpen : Nat → Bool) (s : GState) (ws : Nat)
    (seed gameType : String) (settings : GameSyncManager.GameSettingsIn)
    (playerInfo : UserInfo) (now : Nat) (hinv : GameInv s) :
    GameInv (GameSyncManager.createGameRoom wsOpen s ws seed gameType
      settings playerInfo now).1 := by
  intro rid r hr
  simp only [GameSyncManager.createGameRoom] at hr
  refine hostInv_all_mset s.rooms ("room_" ++ seed) _ hinv ?_ rid r hr
  refine ⟨?_, ?_⟩
  · simp [mset, mkeys]
  · intro kv hkv
    simp [mset] at hkv
    rw [hkv]
    exact ⟨rfl, fun _ => rfl⟩

theorem gameInv_joinGameRoom (wsOpen : Nat → Bool) (s : GState) (ws : Nat)
    (roomId : String) (playerInfo : UserInfo) (password : Option String)
    (spawnPos : Int × Int) (now : Nat) (hinv : GameInv s) :
    GameInv (GameSyncManager.joinGameRoom wsOpen s ws roomId playerInfo
      password spawnPos now).1 := by
  cases hroom : mget s.rooms roomId with
  | none =>
    rw [show (GameSyncManager.joinGameRoom wsOpen s ws roomId playerInfo
        password spawnPos now).1 = s by
      simp [GameSyncManager.joinGameRoom, hroom]]
    exact hinv
  | some room =>
    by_cases hplay : room.status = "playing"
    · rw [show (GameSyncManager.joinGameRoom wsOpen s ws roomId playerInfo
          password spawnPos now).1 = s by
        simp [GameSyncManager.joinGameRoom, hroom, hplay]]
      exact hinv
    · by_cases hfull : (room.players.length : Int) ≥ room.settings.maxPlayers
      · rw [show (GameSyncManager.joinGameRoom wsOpen s ws roomId playerInfo
            password spawnPos now).1 = s by
          simp [GameSyncManager.joinGameRoom, hroom, hplay, hfull]]
        exact hinv
      · by_cases hpw : room.settings.isPrivate = true ∧
            ¬room.settings.password = password
        · rw [show (GameSyncManager.joinGameRoom wsOpen s ws roomId playerInfo
              password spawnPos now).1 = s by
            simp [GameSyncManager.joinGameRoom, hroom, hplay, hfull, hpw]]
          exact hinv
        · rw [show (GameSyncManager.joinGameRoom wsOpen s ws roomId playerInfo
              password spawnPos now).1 =
            { s with
                rooms := mset s.rooms roomId
                  { room with
                      players := mset room.players playerInfo.id
                        { id := playerInfo.id,
                          username := playerInfo.username,
                          isAdmin := playerInfo.isAdmin, isHost := false,
                          score := 0, lives := 3, level := 1,
                          position := spawnPos, powerups := [],
                          isReady := false, ws := ws } },
                playerRooms := mset s.playerRooms playerInfo.id roomId } by
            simp [GameSyncManager.joinGameRoom, hroom, hplay, hfull, hpw]]
          intro rid r hr
          refine hostInv_all_mset s.rooms roomId _ hinv ?_ rid r hr
          exact hostInv_players_mset room playerInfo.id _
            (hinv roomId room hroom) rfl
            (fun hf => absurd hf Bool.false_ne_true)

theorem gameInv_leaveGameRoom (wsOpen : Nat → Bool) (s : GState)
    (roomId playerId : String) (now : Nat) (hinv : GameInv s) :
    GameInv (GameSyncManager.leaveGameRoom wsOpen s roomId playerId now).1 := by
  cases hroom : mget s.rooms roomId with
  | none =>
    rw [show (GameSyncManager.leaveGameRoom wsOpen s roomId playerId now).1 =
        s by simp [GameSyncManager.leaveGameRoom, hroom]]
    exact hinv
  | some room =>
    cases hp : mget room.players playerId with
    | none =>
      rw [show (GameSyncManager.leaveGameRoom wsOpen s roomId playerId
          now).1 = s by simp [GameSyncManager.leaveGameRoom, hroom, hp]]
      exact hinv
    | some player =>
      have hold : HostInv room := hinv roomId room hroom
      cases hdel : mdel room.players playerId with
      | nil =>
        rw [show (GameSyncManager.leaveGameRoom wsOpen s roomId playerId
            now).1 =
          { rooms := mdel s.rooms roomId,
            playerRooms := mdel s.playerRooms playerId,
            gameTimers := GameSyncManager.clearGameTimer s.gameTimers
              roomId } by
          simp [GameSyncManager.leaveGameRoom, hroom, hp, hdel]]
        intro rid r hr
        exact hostInv_all_mdel s.rooms roomId hinv rid r hr
      | cons kv0 rest =>
        by_cases hcond : room.hostId = playerId
        · rw [show (GameSyncManager.leaveGameRoom wsOpen s roomId playerId
              now).1 =
            { s with
                rooms := mset s.rooms roomId
                  { room with
                      players := (kv0.1, { kv0.2 with isHost := true }) ::
                        rest,
                      hostId := kv0.2.id },
                playerRooms := mdel s.playerRooms playerId } by
            simp [GameSyncManager.leaveGameRoom, hroom, hp, hdel, hcond]]
          intro rid r hr
          refine hostInv_all_mset s.rooms roomId _ hinv ?_ rid r hr
          have hnd : (mkeys (mdel room.players playerId)).Nodup :=
            nodup_mkeys_mdel room.players playerId hold.1
          rw [hdel] at hnd
          have hkv0mem : kv0 ∈ room.players := by
            refine mem_mdel (m := room.players) (k := playerId) ?_
            rw [hdel]
            exact List.mem_cons_self kv0 rest
          refine ⟨hnd, ?_⟩
          intro kv hkv
          rcases List.mem_cons.mp hkv with hkv | hkv
          · rw [hkv]
            exact ⟨(hold.2 kv0 hkv0mem).1,
              fun _ => ((hold.2 kv0 hkv0mem).1).symm⟩
          · have hmem0 : kv ∈ mdel room.players playerId := by
              rw [hdel]
              exact List.mem_cons_of_mem _ hkv
            have hmem : kv ∈ room.players := mem_mdel hmem0
            have hne : kv.1 ≠ playerId := mem_mdel_ne hmem0
            refine ⟨(hold.2 kv hmem).1, fun hf => ?_⟩
            exact absurd (((hold.2 kv hmem).2 hf).trans hcond) hne
        · rw [show (GameSyncManager.leaveGameRoom wsOpen s roomId playerId
              now).1 =
            { s with
                rooms := mset s.rooms roomId
                  { room with players := kv0 :: rest },
                playerRooms := mdel s.playerRooms playerId } by
            simp [GameSyncManager.leaveGameRoom, hroom, hp, hdel, hcond]]
          intro rid r hr
          refine hostInv_all_mset s.rooms roomId _ hinv ?_ rid r hr
          have hnd : (mkeys (mdel room.players playerId)).Nodup :=
            nodup_mkeys_mdel room.players playerId hold.1
          rw [hdel] at hnd
          refine ⟨hnd, ?_⟩
          intro kv hkv
          have hmem : kv ∈ room.players := by
            refine mem_mdel (m := room.players) (k := playerId) ?_
            rw [hdel]
            exact hkv
          exact ⟨(hold.2 kv hmem).1, fun hf => (hold.2 kv hmem).2 hf⟩

theorem gameInv_startGame (wsOpen : Nat → Bool) (s : GState)
    (roomId hostId : String) (now : Nat) (hinv : GameInv s) :
    GameInv (GameSyncManager.startGame wsOpen s roomId hostId now).1 := by
  cases hroom : mget s.rooms roomId with
  | none =>
    rw [show (GameSyncManager.startGame wsOpen s roomId hostId now).1 = s by
      simp [GameSyncManager.startGame, hroom]]
    exact hinv
  | some room =>
    by_cases hh : room.hostId = hostId
    · cases hall : room.players.all (fun kv => kv.2.isReady) with
      | false =>
        rw [show (GameSyncManager.startGame wsOpen s roomId hostId now).1 =
            s by simp [GameSyncManager.startGame, hroom, hh, hall]]
        exact hinv
      | true =>
        rw [show (GameSyncManager.startGame wsOpen s roomId hostId now).1 =
          { s with
              rooms := mset s.rooms roomId
                { room with
                    status := "playing",
                    gameState := GameSyncManager.initializeGameState
                      room.gameType },
              gameTimers := GameSyncManager.startGameTimer s.gameTimers
                roomId } by
          simp [GameSyncManager.startGame, hroom, hh, hall]]
        intro rid r hr
        refine hostInv_all_mset s.rooms roomId _ hinv ?_ rid r hr
        exact hinv roomId room hroom
    · rw [show (GameSyncManager.startGame wsOpen s roomId hostId now).1 = s
        by simp [GameSyncManager.startGame, hroom, hh]]
      exact hinv

theorem gameInv_handlePlayerMove (wsOpen : Nat → Bool) (s : GState)
    (roomId playerId : String) (position : Int × Int) (msgTimestamp now : Nat)
    (hinv : GameInv s) :
    GameInv (GameSyncManager.handlePlayerMove wsOpen s roomId playerId
      position msgTimestamp now).1 := by
  cases hroom : mget s.rooms roomId with
  | none =>
    rw [show (GameSyncManager.handlePlayerMove wsOpen s roomId playerId
        position msgTimestamp now).1 = s by
      simp [GameSyncManager.handlePlayerMove, hroom]]
    exact hinv
  | some room =>
    by_cases hstat : room.status = "playing"
    · cases hp : mget room.players playerId with
      | none =>
        rw [show (GameSyncManager.handlePlayerMove wsOpen s roomId playerId
            position msgTimestamp now).1 = s by
          simp [GameSyncManager.handlePlayerMove, hroom, hstat, hp]]
        exact hinv
      | some player =>
        intro rid r hr
        simp [GameSyncManager.handlePlayerMove, hroom, hstat, hp] at hr
        refine hostInv_all_mset s.rooms roomId _ hinv ?_ rid r hr
        have hold : HostInv room := hinv roomId room hroom
        exact hostInv_players_mset room playerId _ hold
          (hold.2 (playerId, player) (mem_of_mget hp)).1
          (fun hf => (hold.2 (playerId, player) (mem_of_mget hp)).2 hf)
    · rw [show (GameSyncManager.handlePlayerMove wsOpen s roomId playerId
          position msgTimestamp now).1 = s by
        simp [GameSyncManager.handlePlayerMove, hroom, hstat]]
      exact hinv

theorem gameInv_handlePlayerScore (wsOpen : Nat → Bool) (s : GState)
    (roomId playerId : String) (points : Int) (itemType : String) (now : Nat)
    (hinv : GameInv s) :
    GameInv (GameSyncManager.handlePlayerScore wsOpen s roomId playerId
      points itemType now).1 := by
  cases hroom : mget s.rooms roomId with
  | none =>
    rw [show (GameSyncManager.handlePlayerScore wsOpen s roomId playerId
        points itemType now).1 = s by
      simp [GameSyncManager.handlePlayerScore, hroom]]
    exact hinv
  | some room =>
    cases hp : mget room.players playerId with
    | none =>
      rw [show (GameSyncManager.handlePlayerScore wsOpen s roomId playerId
          points itemType now).1 = s by
        simp [GameSyncManager.handlePlayerScore, hroom, hp]]
      exact hinv
    | some player =>
      intro rid r hr
      simp [GameSyncManager.handlePlayerScore, hroom, hp] at hr
      refine hostInv_all_mset s.rooms roomId _ hinv ?_ rid r hr
      have hold : HostInv room := hinv roomId room hroom
      exact hostInv_players_mset room playerId _ hold
        (hold.2 (playerId, player) (mem_of_mget hp)).1
        (fun hf => (hold.2 (playerId, player) (mem_of_mget hp)).2 hf)

theorem gameInv_handleFruitSpawn (wsOpen : Nat → Bool) (s : GState)
    (roomId playerId : String) (payload : JVal) (now : Nat)
    (hinv : GameInv s) :
    GameInv (GameSyncManager.handleFruitSpawn wsOpen s roomId playerId
      payload now).1 := by
  cases hroom : mget s.rooms roomId with
  | none =>
    rw [show (GameSyncManager.handleFruitSpawn wsOpen s roomId playerId
        payload now).1 = s by simp [GameSyncManager.handleFruitSpawn, hroom]]
    exact hinv
  | some room =>
    by_cases hstat : room.status = "playing"
    · cases hfr : jget (if jvalTruthy (jget room.gameState "fruits") = false
          then jset room.gameState "fruits" (JVal.jarr [])
        else room.gameState) "fruits" with
      | jarr xs =>
        intro rid r hr
        simp [GameSyncManager.handleFruitSpawn, hroom, hstat, hfr] at hr
        refine hostInv_all_mset s.rooms roomId _ hinv ?_ rid r hr
        exact hinv roomId room hroom
      | undef =>
        rw [show (GameSyncManager.handleFruitSpawn wsOpen s roomId playerId
            payload now).1 = s by
          simp [GameSyncManager.handleFruitSpawn, hroom, hstat, hfr]]
        exact hinv
      | jnull =>
        rw [show (GameSyncManager.handleFruitSpawn wsOpen s roomId playerId
            payload now).1 = s by
          simp [GameSyncManager.handleFruitSpawn, hroom, hstat, hfr]]
        exact hinv
      | jbool b =>
        rw [show (GameSyncManager.handleFruitSpawn wsOpen s roomId playerId
            payload now).1 = s by
          simp [GameSyncManager.handleFruitSpawn, hroom, hstat, hfr]]
        exact hinv
      | jnum n =>
        rw [show (GameSyncManager.handleFruitSpawn wsOpen s roomId playerId
            payload now).1 = s by
          simp [GameSyncManager.handleFruitSpawn, hroom, hstat, hfr]]
        exact hinv
      | jstr str =>
        rw [show (GameSyncManager.handleFruitSpawn wsOpen s roomId playerId
            payload now).1 = s by
          simp [GameSyncManager.handleFruitSpawn, hroom, hstat, hfr]]
        exact hinv
      | jobj fields =>
        rw [show (GameSyncManager.handleFruitSpawn wsOpen s roomId playerId
            payload now).1 = s by
          simp [GameSyncManager.handleFruitSpawn, hroom, hstat, hfr]]
        exact hinv
    · rw [show (GameSyncManager.handleFruitSpawn wsOpen s roomId playerId
          payload now).1 = s by
        simp [GameSyncManager.handleFruitSpawn, hroom, hstat]]
      exact hinv

theorem gameInv_handleBombExplosion (wsOpen : Nat → Bool) (s : GState)
    (roomId playerId : String) (explosionPosition : Int × Int)
    (radius damage : Int) (now : Nat) (hinv : GameInv s) :
    GameInv (GameSyncManager.handleBombExplosion wsOpen s roomId playerId
      explosionPosition radius damage now).1 := by
  cases hroom : mget s.rooms roomId with
  | none =>
    rw [show (GameSyncManager.handleBombExplosion wsOpen s roomId playerId
        explosionPosition radius damage now).1 = s by
      simp [GameSyncManager.handleBombExplosion, hroom]]
    exact hinv
  | some room =>
    intro rid r hr
    simp only [GameSyncManager.handleBombExplosion, hroom] at hr
    refine hostInv_all_mset s.rooms roomId _ hinv ?_ rid r hr
    refine hostInv_players_map room _ ?_ (hinv roomId room hroom)
    intro kv
    by_cases hd : GameSyncManager.distLeRadius kv.2.position
        explosionPosition radius = true
    · simp [hd]
    · simp [hd]

theorem gameInv_broadcastGameState (wsOpen : Nat → Bool) (s : GState)
    (roomId playerId : String) (updates : List (String × JVal)) (now : Nat)
    (hinv : GameInv s) :
    GameInv (GameSyncManager.broadcastGameState wsOpen s roomId playerId
      updates now).1 := by
  cases hroom : mget s.rooms roomId with
  | none =>
    rw [show (GameSyncManager.broadcastGameState wsOpen s roomId playerId
        updates now).1 = s by
      simp [GameSyncManager.broadcastGameState, hroom]]
    exact hinv
  | some room =>
    intro rid r hr
    simp only [GameSyncManager.broadcastGameState, hroom] at hr
    refine hostInv_all_mset s.rooms roomId _ hinv ?_ rid r hr
    exact hinv roomId room hroom

theorem gameInv_endGame (wsOpen : Nat → Bool) (s : GState)
    (roomId reason : String) (now : Nat) (hinv : GameInv s) :
    GameInv (GameSyncManager.endGame wsOpen s roomId reason now).1 := by
  cases hroom : mget s.rooms roomId with
  | none =>
    rw [show (GameSyncManager.endGame wsOpen s roomId reason now).1 = s by
      simp [GameSyncManager.endGame, hroom]]
    exact hinv
  | some room =>
    intro rid r hr
    simp only [GameSyncManager.endGame, hroom] at hr
    refine hostInv_all_mset s.rooms roomId _ hinv ?_ rid r hr
    exact hinv roomId room hroom

theorem gameInv_init :
    GameInv { rooms := [], playerRooms := [], gameTimers := [] } := by
  intro rid r hr
  simp [mget] at hr

theorem gameInv_step (wsOpen : Nat → Bool) (s : GState) (op : GameOp)
    (hinv : GameInv s) : GameInv (gameStep wsOpen s op).1 := by
  cases op with
  | roomCreate ws seed gameType settings playerInfo now =>
    exact gameInv_createGameRoom wsOpen s ws seed gameType settings
      playerInfo now hinv
  | roomJoin ws roomId playerInfo password spawnPos now =>
    exact gameInv_joinGameRoom wsOpen s ws roomId playerInfo password
      spawnPos now hinv
  | roomLeave roomId playerId now =>
    exact gameInv_leaveGameRoom wsOpen s roomId playerId now hinv
  | gameStart roomId playerId now =>
    exact gameInv_startGame wsOpen s roomId playerId now hinv
  | playerMove roomId playerId position msgTimestamp now =>
    exact gameInv_handlePlayerMove wsOpen s roomId playerId position
      msgTimestamp now hinv
  | playerScore roomId playerId points itemType now =>
    exact gameInv_handlePlayerScore wsOpen s roomId playerId points
      itemType now hinv
  | stateUpdate roomId playerId updates now =>
    exact gameInv_broadcastGameState wsOpen s roomId playerId updates now hinv
  | fruitSpawn roomId playerId payload now =>
    exact gameInv_handleFruitSpawn wsOpen s roomId playerId payload now hinv
  | bombExplosion roomId playerId explosionPosition radius damage now =>
    exact gameInv_handleBombExplosion wsOpen s roomId playerId
      explosionPosition radius damage now hinv
  | timerFire roomId now =>
    by_cases ht : (mget s.gameTimers roomId).isSome = true
    · rw [show (gameStep wsOpen s (GameOp.timerFire roomId now)).1 =
        (GameSyncManager.endGame wsOpen s roomId "timeout" now).1 by
        simp [gameStep, ht]]
      exact gameInv_endGame wsOpen s roomId "timeout" now hinv
    · rw [show (gameStep wsOpen s (GameOp.timerFire roomId now)).1 = s by
        simp [gameStep, ht]]
      exact hinv
  | disconnect ws now =>
    cases hf : GameSyncManager.findPlayerByWs s.rooms ws with
    | none =>
      rw [show (gameStep wsOpen s (GameOp.disconnect ws now)).1 = s by
        simp [gameStep, GameSyncManager.handlePlayerDisconnect, hf]]
      exact hinv
    | some rp =>
      rw [show (gameStep wsOpen s (GameOp.disconnect ws now)).1 =
        (GameSyncManager.leaveGameRoom wsOpen s rp.1 rp.2 now).1 by
        simp [gameStep, GameSyncManager.handlePlayerDisconnect, hf]]
      exact gameInv_leaveGameRoom wsOpen s rp.1 rp.2 now hinv

theorem gameInv_reachable (s : GState) (h : GReach s) : GameInv s := by
  induction h with
  | init => exact gameInv_init
  | step s' op wsOpen _ ih => exact gameInv_step wsOpen s' op ih

/-- Counterexample to C2 as stated: in the reachable state reached by alice
creating `room_A`, bob joining it, and alice (the current host) re-joining
her own room, `room_A` has two members but zero members holding the host
flag, while `hostId` still names alice — `joinGameRoom` replaces the
rejoining host's record with a fresh `isHost: false` one, so a non-empty
room need not have exactly one flagged host. -/
theorem claim_C2_counterexample :
    GReach gsA3 ∧
    (mget gsA3.rooms "room_A").map (fun r =>
      (r.players.length,
       (r.players.filter (fun kv => kv.2.isHost)).length, r.hostId)) =
      some (2, 0, "p1") := by
  refine ⟨?_, by rfl⟩
  exact GReach.step _ _ _ (GReach.step _ _ _ (GReach.step _ _ _ GReach.init))

/-- C2 (amended): at every reachable state of the game manager, every stored
room has at most one member holding the host flag, and any member holding it
is keyed and identified by the room's `hostId`. The "a non-empty room has
exactly one host" half of the original claim does not hold: when the current
host re-joins their own room, `joinGameRoom` replaces their record with a
fresh non-host one, leaving a non-empty room with no flagged member (see the
counterexample). -/
theorem claim_C2 (s : GState) (roomId : String) (room : GameRoom)
    (hreach : GReach s) (hroom : mget s.rooms roomId = some room) :
    (room.players.filter (fun kv => kv.2.isHost)).length ≤ 1 ∧
    ∀ kv ∈ room.players, kv.2.isHost = true →
      kv.1 = room.hostId ∧ kv.2.id = room.hostId := by
  have hinv : HostInv room := gameInv_reachable s hreach roomId room hroom
  refine ⟨filter_host_length_le_one room.players room.hostId hinv.1
    (fun kv hkv hf => (hinv.2 kv hkv).2 hf), ?_⟩
  intro kv hkv hf
  have h1 := (hinv.2 kv hkv).2 hf
  exact ⟨h1, ((hinv.2 kv hkv).1).trans h1⟩

/-- Witness for C2: in the reachable two-member room `room_A` (alice the
creating host, bob a joined member) at most one member is flagged and every
flagged member is the `hostId` member. -/
theorem claim_C2_witness :
    (((mget gsA2.rooms "room_A").get (by rfl)).players.filter
      (fun kv => kv.2.isHost)).length ≤ 1 ∧
    ∀ kv ∈ ((mget gsA2.rooms "room_A").get (by rfl)).players,
      kv.2.isHost = true →
        kv.1 = ((mget gsA2.rooms "room_A").get (by rfl)).hostId ∧
        kv.2.id = ((mget gsA2.rooms "room_A").get (by rfl)).hostId :=
  claim_C2 gsA2 "room_A" ((mget gsA2.rooms "room_A").get (by rfl))
    (GReach.step _ _ _ (GReach.step _ _ _ GReach.init))
    (Option.some_get _).symm

end VoiceChatTS
